import Mathlib

/-
Verification of the sundialy ephemeris/irradiance layer (SPA, SAMPA, SOLPOS, Bird)
against its natural-language specification.

The definitions below are a shallow embedding of the Python source files
src/sundialy/tools/spa.py, sampa.py, bird.py and solpos.py.  Python floats are
modelled as real numbers; Python's partial operations (math.acos outside
[-1, 1]) are modelled with Option.  Line numbers in comments refer to the
source files.
-/

namespace Sundialy

noncomputable section

/-! Basic Python-arithmetic helpers -/

/-- Python float modulo `x % y`.  For a positive modulus `y` (the only case the
programs use: 360, 180, 24, 1) Python returns `x - y * floor (x / y)`, a value
in `[0, y)`. -/
def pymod (x y : ℝ) : ℝ := x - y * (⌊x / y⌋ : ℝ)

/-- Python `int(x)` on a float: truncation toward zero. -/
def pyInt (x : ℝ) : ℤ := if 0 ≤ x then ⌊x⌋ else -⌊-x⌋

/-- Python `math.radians`. -/
def radians (x : ℝ) : ℝ := x * (Real.pi / 180)

/-- Python `math.degrees`. -/
def degrees (x : ℝ) : ℝ := x * (180 / Real.pi)

/-- Python `math.atan2 y x`: the angle of the point `(x, y)` in `(-pi, pi]`,
with `atan2 0 0 = 0`; this is exactly `Complex.arg` of `x + y*I`. -/
def pyAtan2 (y x : ℝ) : ℝ := Complex.arg ((x : ℂ) + (y : ℂ) * Complex.I)

/-- Python `math.acos`: defined only on `[-1, 1]`; outside that interval the
call raises `ValueError: math domain error`, modelled by `none`. -/
def pyAcos (x : ℝ) : Option ℝ := if |x| ≤ 1 then some (Real.arccos x) else none

/-! Julian clock (spa.py lines 671-685; the same block appears verbatim in
spa.py lines 106-120, 349-362 and sampa.py lines 87-100, 301-315). -/

/-- Year after the Jan/Feb fold (spa.py lines 672-674): January and February
are treated as months 13 and 14 of the previous year. -/
def foldYear (year month : ℤ) : ℤ := if month ≤ 2 then year - 1 else year

/-- Month after the Jan/Feb fold (spa.py lines 672-674). -/
def foldMonth (year month : ℤ) : ℤ := if month ≤ 2 then month + 12 else month

/-- Fractional day (spa.py lines 675-678): hour, minute, second and microsecond
are folded into the day. -/
def dayFraction (day hour minute second microsecond : ℝ) : ℝ :=
  day + (hour + (minute + (second + microsecond / 1000000) / 60) / 60) / 24

/-- Julian Day as computed by the code (spa.py lines 672-681).  Python's
`int()` truncates toward zero, hence `pyInt`. -/
def julianDay (year month : ℤ) (dayFrac : ℝ) : ℝ :=
  let y := foldYear year month
  let m := foldMonth year month
  let a : ℤ := pyInt ((y : ℝ) / 100)
  let bForJd : ℤ := 2 - a + pyInt ((a : ℝ) / 4)
  (pyInt (365.25 * ((y : ℝ) + 4716)) : ℝ) + (pyInt (30.6001 * ((m : ℝ) + 1)) : ℝ)
    + dayFrac + (bForJd : ℝ) - 1524.5

/-- Modelled from the spec (section 4.1), for comparison with `julianDay`:
JD = floor (365.25*(year+4716)) + floor (30.6001*(month+1)) + day + b - 1524.5
with b = 2 - floor (year/100) + floor (floor (year/100) / 4), where floor is
the mathematical floor function, applied after the Jan/Feb fold. -/
def specJulianDay (year month : ℤ) (dayFrac : ℝ) : ℝ :=
  let y := foldYear year month
  let m := foldMonth year month
  let a : ℤ := ⌊(y : ℝ) / 100⌋
  let b : ℤ := 2 - a + ⌊(a : ℝ) / 4⌋
  (⌊365.25 * ((y : ℝ) + 4716)⌋ : ℝ) + (⌊30.6001 * ((m : ℝ) + 1)⌋ : ℝ)
    + dayFrac + (b : ℝ) - 1524.5

/-- Julian Ephemeris Day (spa.py line 682). -/
def jdeOf (jd dt : ℝ) : ℝ := jd + dt / 86400

/-- Julian Century (spa.py line 683). -/
def jcOf (jd : ℝ) : ℝ := (jd - 2451545) / 36525

/-- Julian Ephemeris Century (spa.py line 684). -/
def jceOf (jde : ℝ) : ℝ := (jde - 2451545) / 36525

/-- Julian Ephemeris Millennium (spa.py line 685). -/
def jmeOf (jce : ℝ) : ℝ := jce / 10

/-! Atmospheric refraction steps -/

/-- Refraction correction applied to the solar topocentric elevation
(spa.py lines 802-806): the empirical formula is used only when the elevation
is at least -(0.26667 + 0.5667) degrees, otherwise the correction is zero. -/
def refractionSpa (pressure temperature e0 : ℝ) : ℝ :=
  if e0 ≥ -1 * (0.26667 + 0.5667) then
    (pressure / 1010) * (283 / (273 + temperature)) *
      (1.02 / (60 * Real.tan (radians (e0 + 10.3 / (e0 + 5.11)))))
  else 0

/-- Refraction correction applied to the lunar topocentric elevation
(sampa.py lines 436-440); textually identical to the solar one in spa.py,
including the depression-threshold gate on the (here lunar) elevation. -/
def refractionSampa (pressure temperature e0 : ℝ) : ℝ :=
  if e0 ≥ -1 * (0.26667 + 0.5667) then
    (pressure / 1010) * (283 / (273 + temperature)) *
      (1.02 / (60 * Real.tan (radians (e0 + 10.3 / (e0 + 5.11)))))
  else 0

/-- Modelled from the spec (section 4.6), for comparison with
`refractionSampa`: the claim asserts that on the lunar side the refraction
formula is applied unconditionally, with no depression-threshold gate. -/
def specLunarRefraction (pressure temperature e0 : ℝ) : ℝ :=
  (pressure / 1010) * (283 / (273 + temperature)) *
    (1.02 / (60 * Real.tan (radians (e0 + 10.3 / (e0 + 5.11)))))

/-! Sunrise/sunset hour-angle half-range branch (spa.py lines 842-854).
Both branches of the Python `if abs(acos_arguement) <= 1` evaluate
`math.acos(acos_arguement)`; in the second branch (argument outside [-1, 1])
that call raises ValueError before the note string is assigned, so the
evaluation is `none` there. -/

/-- Hour-angle half-range H0 and sun-time note as evaluated by spa.py lines
842-854, as a function of the acos argument computed on lines 842-843.  The
result is `none` exactly when Python raises. -/
def spaSunTimesH0 (acosArg : ℝ) : Option (ℝ × String) :=
  if |acosArg| ≤ 1 then
    (pyAcos acosArg).map (fun v => (pymod (degrees v) 180, ""))
  else
    (pyAcos acosArg).map (fun v =>
      (pymod (degrees v) 180, "Sun is always above or below the horizon for that day"))

/-! Equation of time (spa.py lines 820-828). -/

/-- Sun's mean longitude, reduced mod 360 (spa.py lines 820-822). -/
def spaMeanLongitude (jme : ℝ) : ℝ :=
  pymod (280.4664567 + 360007.6982779 * jme + 0.03032028 * jme ^ 2 + jme ^ 3 / 49931
    - jme ^ 4 / 15300 - jme ^ 5 / 2000000) 360

/-- Single plus-or-minus 1440-minute wraparound applied to the raw
equation-of-time minutes (spa.py lines 825-828). -/
def eotWrap (em : ℝ) : ℝ :=
  if em > 20 then em - 1440 else if em < -20 then em + 1440 else em

/-- Equation of time in minutes as returned by spa (spa.py lines 823-828), as
a function of the Julian Ephemeris Millennium, the geocentric apparent right
ascension `a2` (already reduced mod 360 on line 782) and the nutation term
`dy * cos (radians e)` from line 823. -/
def spaEotMinutes (jme a2 dycos : ℝ) : ℝ :=
  eotWrap ((spaMeanLongitude jme - 0.0057183 - a2 + dycos) * 4)

/-! Eclipse geometry (sampa.py lines 456-490). -/

/-- Eclipse classification note (sampa.py lines 462-474).  The source first
assigns a three-way note (lines 462-467) and then, whenever `ems < rm + rs`,
overwrites it on lines 469-474; the intermediate value of the first assignment
in that case is therefore dead, and the net effect is this nested
conditional. -/
def eclipseNote (ems rm rs : ℝ) : String :=
  if ems > rm + rs then "No Eclipse"
  else if ems = rm + rs then "Start or End of Eclipse"
  else if ems ≤ |rm - rs| then "Total Solar Eclipse"
  else "Partial Solar Eclipse"

/-- Two-circle lens-intersection (chord-height) overlap area for the partial
eclipse branch (sampa.py lines 475-484).  `Real.arccos` is total; on the
reachable branch the arguments are inside [-1, 1] (proved below), matching
Python's `math.acos`. -/
def lensArea (ems rm rs : ℝ) : ℝ :=
  let s := (ems ^ 2 + rs ^ 2 - rm ^ 2) / (2 * ems)
  let m := (ems ^ 2 - rs ^ 2 + rm ^ 2) / (2 * ems)
  let h := Real.sqrt (4 * ems ^ 2 * rs ^ 2 - (ems ^ 2 + rs ^ 2 - rm ^ 2) ^ 2) / (2 * ems)
  let tS := h * s
  let tM := h * m
  let aS := rs ^ 2 * Real.arccos (s / rs)
  let aCapital1 := aS - tS
  let aM := rm ^ 2 * Real.arccos (m / rm)
  let aCapital2 := aM - tM
  aCapital1 + aCapital2

/-- Overlap area `a_i` between the solar and lunar disks
(sampa.py lines 469-486). -/
def overlapArea (ems rm rs : ℝ) : ℝ :=
  if ems < rm + rs then
    if ems ≤ |rm - rs| then Real.pi * rm ^ 2 else lensArea ems rm rs
  else 0

/-- Area of the sun's unshaded lune, clamped at zero
(sampa.py lines 487-489). -/
def sulArea (ems rm rs : ℝ) : ℝ :=
  let a := Real.pi * rs ^ 2 - overlapArea ems rm rs
  if a < 0 then 0 else a

/-- Percentage of the sun's disk left unshaded (sampa.py line 490). -/
def sulPercent (ems rm rs : ℝ) : ℝ :=
  sulArea ems rm rs * 100 / (Real.pi * rs ^ 2)

/-! Bird clear-sky irradiance model (bird.py lines 24-86).  The local
assignments of the Python function are factored into named definitions; `bird`
assembles them exactly as the source does.  The transmittance definitions and
`bird` give the real value of each expression on the non-raising executions:
Python's `**` with a negative base yields a complex number (raising TypeError
as soon as it reaches `math.exp` or a comparison), and `0 ** negative` or a
zero denominator raises; which inputs raise is modelled separately by
`pyPowDefined` and the Option-valued `birdOpt` below, so exception behavior
is always read off `birdOpt`, never off the total functions. -/

/-- Result record for `bird`, in the order of the returned 7-tuple
(bird.py lines 84 and 86). -/
structure BirdOut where
  amass : ℝ
  directNormal : ℝ
  globalHoriz : ℝ
  diffuseHoriz : ℝ
  directNormalMod : ℝ
  globalHorizMod : ℝ
  diffuseHorizMod : ℝ

/-- Relative optical air mass (bird.py line 54). -/
def birdAirMass (zenith : ℝ) : ℝ :=
  (Real.cos (radians zenith) + 0.50572 * (96.07995 - zenith) ^ (-1.6364 : ℝ))⁻¹

/-- Rayleigh transmittance (bird.py line 58), of the pressure-corrected air
mass. -/
def birdTr (mp : ℝ) : ℝ :=
  Real.exp (-0.0903 * mp ^ (0.84 : ℝ) * (1 + mp - mp ^ (1.01 : ℝ)))

/-- Ozone transmittance (bird.py line 60), of `xo = ozone * m`. -/
def birdTo (xo : ℝ) : ℝ :=
  1 - 0.1611 * xo * (1 + 139.48 * xo) ^ (-0.3034 : ℝ)
    - 0.002715 * xo * (1 + 0.044 * xo + 0.0003 * xo ^ 2)⁻¹

/-- Mixed-gas transmittance (bird.py line 61), of the pressure-corrected air
mass. -/
def birdTum (mp : ℝ) : ℝ := Real.exp (-0.0127 * mp ^ (0.26 : ℝ))

/-- Water-vapor transmittance (bird.py line 62), of `xw = water * m`. -/
def birdTw (xw : ℝ) : ℝ :=
  1 - 2.4959 * xw * ((1 + 79.034 * xw) ^ (0.6828 : ℝ) + 6.385 * xw)⁻¹

/-- Aerosol transmittance (bird.py line 63). -/
def birdTa (aerosol m : ℝ) : ℝ :=
  Real.exp (-(aerosol ^ (0.873 : ℝ)) * (1 + aerosol - aerosol ^ (0.7088 : ℝ)) * m ^ (0.9108 : ℝ))

/-- Aerosol absorptance factor (bird.py line 64). -/
def birdTaa (k1 m ta : ℝ) : ℝ := 1 - k1 * (1 - m + m ^ (1.06 : ℝ)) * (1 - ta)

/-- Direct normal irradiance before the clamp at zero (bird.py line 73). -/
def birdDirectNormalRaw (r zenith pressure ozone water aerosol : ℝ) : ℝ :=
  let m := birdAirMass zenith
  let mp := m * pressure / 1013
  0.9662 * (1367 / r ^ 2) * birdTr mp * birdTo (ozone * m) * birdTum mp
    * birdTw (water * m) * birdTa aerosol m

/-- Bird clear-sky model (bird.py lines 24-86), on the non-raising executions.
Outside the valid domain `0 <= zenith < 90 and r > 0` the all-zero tuple is
returned (line 86).  Inside the domain this gives the returned values under
the side conditions collected in `birdOpt`; when those fail the Python call
raises and returns nothing, which `birdOpt` records as `none`. -/
def bird (r zenith pressure ozone water aerosol albedo dniMod ba k1 : ℝ) : BirdOut :=
  if 0 ≤ zenith ∧ zenith < 90 ∧ 0 < r then
    let m := birdAirMass zenith
    let mp := m * pressure / 1013
    let xo := ozone * m
    let xw := water * m
    let tr := birdTr mp
    let to2 := birdTo xo
    let tum := birdTum mp
    let tw := birdTw xw
    let ta := birdTa aerosol m
    let taa := birdTaa k1 m ta
    let tas := ta / taa
    let rsAlb := 0.0685 + (1 - ba) * (1 - tas)
    let io := 1367 / r ^ 2
    let id2 := io * Real.cos (radians zenith) * 0.9662 * tr * to2 * tum * tw * ta
    let ias := io * Real.cos (radians zenith) * 0.79 * to2 * tw * tum * taa *
      (0.5 * (1 - tr) + ba * (1 - tas)) / (1 - m + m ^ (1.02 : ℝ))
    let it := (id2 + ias) / (1 - albedo * rsAlb)
    let dnRaw := birdDirectNormalRaw r zenith pressure ozone water aerosol
    let directNormal := if dnRaw < 0 then 0 else dnRaw
    let directHorizontal := directNormal * Real.cos (radians zenith)
    let diffuseHorizontal := it - directHorizontal
    if 0 ≤ dniMod then
      let directNormalMod := directNormal * dniMod
      let directHorizontalMod := directNormalMod * Real.cos (radians zenith)
      let itMod := (directHorizontalMod + ias) / (1 - albedo * rsAlb)
      let diffuseHorizontalMod := itMod - directHorizontalMod
      ⟨m, directNormal, it, diffuseHorizontal, directNormalMod, itMod, diffuseHorizontalMod⟩
    else
      ⟨m, directNormal, it, diffuseHorizontal, 0, 0, 0⟩
  else ⟨0, 0, 0, 0, 0, 0, 0⟩

/-- Irradiance 6-tuple `I_e` assembled by sampa (sampa.py lines 491-492) from
the Bird outputs, as a function of the eclipse geometry quantities and the
Bird inputs: each unattenuated output is paired with its
eclipse-attenuated (sun's-unshaded-lune) counterpart. -/
structure SampaIe where
  dni : ℝ
  dniSul : ℝ
  ghi : ℝ
  ghiSul : ℝ
  dhi : ℝ
  dhiSul : ℝ

/-- Bird invocation of sampa (sampa.py lines 491-492): `dni_mod` is the SUL
percentage divided by 100. -/
def sampaIrradiance (ems rm rs rcs thetaS pressure ozone water aerosol albedo ba k1 : ℝ) :
    SampaIe :=
  let irr := bird rcs thetaS pressure ozone water aerosol albedo
    (sulPercent ems rm rs / 100) ba k1
  ⟨irr.directNormal, irr.directNormalMod, irr.globalHoriz, irr.globalHorizMod,
    irr.diffuseHoriz, irr.diffuseHorizMod⟩

/-- Definedness of the Python float power `x ** y` for a non-integer exponent
`y`: Python returns a real float iff the base is positive, or the base is zero
and the exponent positive (`0.0 ** y` is `0.0` for `y > 0`).  For a negative
base Python returns a complex number, and for a zero base with negative
exponent it raises ZeroDivisionError; in `bird` every complex intermediate is
fed into `math.exp` or a float comparison and raises TypeError before the
function can return, so a base outside this predicate means the call raises. -/
def pyPowDefined (x y : ℝ) : Prop := 0 < x ∨ (x = 0 ∧ 0 < y)

instance (x y : ℝ) : Decidable (pyPowDefined x y) :=
  inferInstanceAs (Decidable (0 < x ∨ (x = 0 ∧ 0 < y)))

/-- Evaluation of the Python call `bird(...)` including its exceptional paths:
`some v` when the call returns the value `v`, `none` when it raises.  Inside
the guarded domain (bird.py line 50) the call raises exactly when one of the
fractional powers on lines 54-71 has a base outside `pyPowDefined` (the
complex value then reaches `math.exp` on lines 58/61/63, or the comparison on
line 74, and raises TypeError, or `0 ** negative` raises ZeroDivisionError),
or one of the divisions on lines 60, 62, 65, 70-72 and 82 has a zero
denominator (ZeroDivisionError); otherwise every intermediate is the real
number computed by `bird`.  The line-54 power `(96.07995 - zenith) ** -1.6364`
and outer `** -1` need no condition: in-domain `zenith < 90` makes the inner
base positive and the air-mass denominator strictly positive (cosine of an
angle below 90 degrees plus a positive term), and `r ** 2 > 0` on line 68;
floating-point range errors (overflow) are outside the real-valued model,
like rounding. -/
def birdOpt (r zenith pressure ozone water aerosol albedo dniMod ba k1 : ℝ) :
    Option BirdOut :=
  if 0 ≤ zenith ∧ zenith < 90 ∧ 0 < r then
    let m := birdAirMass zenith
    let mp := m * pressure / 1013
    let xo := ozone * m
    let xw := water * m
    let ta := birdTa aerosol m
    if pyPowDefined mp 0.84 ∧ pyPowDefined mp 1.01 ∧
        pyPowDefined (1 + 139.48 * xo) (-0.3034) ∧
        (1 + 0.044 * xo + 0.0003 * xo ^ 2) ≠ 0 ∧
        pyPowDefined mp 0.26 ∧
        pyPowDefined (1 + 79.034 * xw) 0.6828 ∧
        ((1 + 79.034 * xw) ^ (0.6828 : ℝ) + 6.385 * xw) ≠ 0 ∧
        pyPowDefined aerosol 0.873 ∧ pyPowDefined aerosol 0.7088 ∧
        pyPowDefined m 0.9108 ∧ pyPowDefined m 1.06 ∧
        birdTaa k1 m ta ≠ 0 ∧
        pyPowDefined m 1.02 ∧
        (1 - m + m ^ (1.02 : ℝ)) ≠ 0 ∧
        (1 - albedo * (0.0685 + (1 - ba) * (1 - ta / birdTaa k1 m ta))) ≠ 0 then
      some (bird r zenith pressure ozone water aerosol albedo dniMod ba k1)
    else none
  else some ⟨0, 0, 0, 0, 0, 0, 0⟩

/-! Coefficient tables, transcribed from the Python sources.  The nutation
tables (63 rows) appear verbatim four times in the sources (spa.py lines
46-95, 171-220, 493-542 and sampa.py lines 241-290); the heliocentric tables
appear in spa.py lines 231-333 and 553-655 (and the R tables again in sampa.py
lines 48-79); the lunar tables are sampa.py lines 173-233.  All repeated
occurrences are textually identical, so each table is defined once. -/

def coefficientsForSinTerms : List (List Int) :=
  [[0, 0, 0, 0, 1],
   [(-2), 0, 0, 2, 2],
   [0, 0, 0, 2, 2],
   [0, 0, 0, 0, 2],
   [0, 1, 0, 0, 0],
   [0, 0, 1, 0, 0],
   [(-2), 1, 0, 2, 2],
   [0, 0, 0, 2, 1],
   [0, 0, 1, 2, 2],
   [(-2), (-1), 0, 2, 2],
   [(-2), 0, 1, 0, 0],
   [(-2), 0, 0, 2, 1],
   [0, 0, (-1), 2, 2],
   [2, 0, 0, 0, 0],
   [0, 0, 1, 0, 1],
   [2, 0, (-1), 2, 2],
   [0, 0, (-1), 0, 1],
   [0, 0, 1, 2, 1],
   [(-2), 0, 2, 0, 0],
   [0, 0, (-2), 2, 1],
   [2, 0, 0, 2, 2],
   [0, 0, 2, 2, 2],
   [0, 0, 2, 0, 0],
   [(-2), 0, 1, 2, 2],
   [0, 0, 0, 2, 0],
   [(-2), 0, 0, 2, 0],
   [0, 0, (-1), 2, 1],
   [0, 2, 0, 0, 0],
   [2, 0, (-1), 0, 1],
   [(-2), 2, 0, 2, 2],
   [0, 1, 0, 0, 1],
   [(-2), 0, 1, 0, 1],
   [0, (-1), 0, 0, 1],
   [0, 0, 2, (-2), 0],
   [2, 0, (-1), 2, 1],
   [2, 0, 1, 2, 2],
   [0, 1, 0, 2, 2],
   [(-2), 1, 1, 0, 0],
   [0, (-1), 0, 2, 2],
   [2, 0, 0, 2, 1],
   [2, 0, 1, 0, 0],
   [(-2), 0, 2, 2, 2],
   [(-2), 0, 1, 2, 1],
   [2, 0, (-2), 0, 1],
   [2, 0, 0, 0, 1],
   [0, (-1), 1, 0, 0],
   [(-2), (-1), 0, 2, 1],
   [(-2), 0, 0, 0, 1],
   [0, 0, 2, 2, 1],
   [(-2), 0, 2, 0, 1],
   [(-2), 1, 0, 2, 1],
   [0, 0, 1, (-2), 0],
   [(-1), 0, 1, 0, 0],
   [(-2), 1, 0, 0, 0],
   [1, 0, 0, 0, 0],
   [0, 0, 1, 2, 0],
   [0, 0, (-2), 2, 2],
   [(-1), (-1), 1, 0, 0],
   [0, 1, 1, 0, 0],
   [0, (-1), 1, 2, 2],
   [2, (-1), (-1), 2, 2],
   [0, 0, 3, 2, 2],
   [2, (-1), 0, 2, 2]]

def coefficientsForDy : List (Option Real × Option Real) :=
  [(some (-171996), some (-174.2)),
   (some (-13187), some (-1.6)),
   (some (-2274), some (-0.2)),
   (some 2062, some 0.2),
   (some 1426, some (-3.4)),
   (some 712, some 0.1),
   (some (-517), some 1.2),
   (some (-386), some (-0.4)),
   (some (-301), none),
   (some 217, some (-0.5)),
   (some (-158), none),
   (some 129, some 0.1),
   (some 123, none),
   (some 63, none),
   (some 63, some 0.1),
   (some (-59), none),
   (some (-58), some (-0.1)),
   (some (-51), none),
   (some 48, none),
   (some 46, none),
   (some (-38), none),
   (some (-31), none),
   (some 29, none),
   (some 29, none),
   (some 26, none),
   (some (-22), none),
   (some 21, none),
   (some 17, some (-0.1)),
   (some 16, none),
   (some (-16), some 0.1),
   (some (-15), none),
   (some (-13), none),
   (some (-12), none),
   (some 11, none),
   (some (-10), none),
   (some (-8), none),
   (some 7, none),
   (some (-7), none),
   (some (-7), none),
   (some (-7), none),
   (some 6, none),
   (some 6, none),
   (some 6, none),
   (some (-6), none),
   (some (-6), none),
   (some 5, none),
   (some (-5), none),
   (some (-5), none),
   (some (-5), none),
   (some 4, none),
   (some 4, none),
   (some 4, none),
   (some (-4), none),
   (some (-4), none),
   (some (-4), none),
   (some 3, none),
   (some (-3), none),
   (some (-3), none),
   (some (-3), none),
   (some (-3), none),
   (some (-3), none),
   (some (-3), none),
   (some (-3), none)]

def coefficientsForDe : List (Option Real × Option Real) :=
  [(some 92025, some 8.9),
   (some 5736, some (-3.1)),
   (some 977, some (-0.5)),
   (some (-895), some 0.5),
   (some 54, some (-0.1)),
   (some (-7), none),
   (some 224, some (-0.6)),
   (some 200, none),
   (some 129, some (-0.1)),
   (some (-95), some 0.3),
   (none, none),
   (some (-70), none),
   (some (-53), none),
   (none, none),
   (some (-33), none),
   (some 26, none),
   (some 32, none),
   (some 27, none),
   (none, none),
   (some (-24), none),
   (some 16, none),
   (some 13, none),
   (none, none),
   (some (-12), none),
   (none, none),
   (none, none),
   (some (-10), none),
   (none, none),
   (some (-8), none),
   (some 7, none),
   (some 9, none),
   (some 7, none),
   (some 6, none),
   (none, none),
   (some 5, none),
   (some 3, none),
   (some (-3), none),
   (none, none),
   (some 3, none),
   (some 3, none),
   (none, none),
   (some (-3), none),
   (some (-3), none),
   (some 3, none),
   (some 3, none),
   (none, none),
   (some 3, none),
   (some 3, none),
   (some 3, none),
   (none, none),
   (none, none),
   (none, none),
   (none, none),
   (none, none),
   (none, none),
   (none, none),
   (none, none),
   (none, none),
   (none, none),
   (none, none),
   (none, none),
   (none, none),
   (none, none)]

def earthPeriodicTermsL0 : List (Real × Real × Real) :=
  [(175347046, 0, 0),
   (3341656, 4.6692568, 6283.07585),
   (34894, 4.6261, 12566.1517),
   (3497, 2.7441, 5753.3849),
   (3418, 2.8289, 3.5231),
   (3136, 3.6277, 77713.7715),
   (2676, 4.4181, 7860.4194),
   (2343, 6.1352, 3930.2097),
   (1324, 0.7425, 11506.7698),
   (1273, 2.0371, 529.691),
   (1199, 1.1096, 1577.3435),
   (990, 5.233, 5884.927),
   (902, 2.045, 26.298),
   (857, 3.508, 398.149),
   (780, 1.179, 5223.694),
   (753, 2.533, 5507.553),
   (505, 4.583, 18849.228),
   (492, 4.205, 775.523),
   (357, 2.92, 0.067),
   (317, 5.849, 11790.629),
   (284, 1.899, 796.298),
   (271, 0.315, 10977.079),
   (243, 0.345, 5486.778),
   (206, 4.806, 2544.314),
   (205, 1.869, 5573.143),
   (202, 2.458, 6069.777),
   (156, 0.833, 213.299),
   (132, 3.411, 2942.463),
   (126, 1.083, 20.775),
   (115, 0.645, 0.98),
   (103, 0.636, 4694.003),
   (102, 0.976, 15720.839),
   (102, 4.267, 7.114),
   (99, 6.21, 2146.17),
   (98, 0.68, 155.42),
   (86, 5.98, 161000.69),
   (85, 1.3, 6275.96),
   (85, 3.67, 71430.7),
   (80, 1.81, 17260.15),
   (79, 3.04, 12036.46),
   (75, 1.76, 5088.63),
   (74, 3.5, 3154.69),
   (74, 4.68, 801.82),
   (70, 0.83, 9437.76),
   (62, 3.98, 8827.39),
   (61, 1.82, 7084.9),
   (57, 2.78, 6286.6),
   (56, 4.39, 14143.5),
   (56, 3.47, 6279.55),
   (52, 0.19, 12139.55),
   (52, 1.33, 1748.02),
   (51, 0.28, 5856.48),
   (49, 0.49, 1194.45),
   (41, 5.37, 8429.24),
   (41, 2.4, 19651.05),
   (39, 6.17, 10447.39),
   (37, 6.04, 10213.29),
   (37, 2.57, 1059.38),
   (36, 1.71, 2352.87),
   (36, 1.78, 6812.77),
   (33, 0.59, 17789.85),
   (30, 0.44, 83996.85),
   (30, 2.74, 1349.87),
   (25, 3.16, 4690.48)]

def earthPeriodicTermsL1 : List (Real × Real × Real) :=
  [(628331966747, 0, 0),
   (206059, 2.678235, 6283.07585),
   (4303, 2.6351, 12566.1517),
   (425, 1.59, 3.523),
   (119, 5.796, 26.298),
   (109, 2.966, 1577.344),
   (93, 2.59, 18849.23),
   (72, 1.14, 529.69),
   (68, 1.87, 398.15),
   (67, 4.41, 5507.55),
   (59, 2.89, 5223.69),
   (56, 2.17, 155.42),
   (45, 0.4, 796.3),
   (36, 0.47, 775.52),
   (29, 2.65, 7.11),
   (21, 5.34, 0.98),
   (19, 1.85, 5486.78),
   (19, 4.97, 213.3),
   (17, 2.99, 6275.96),
   (16, 0.03, 2544.31),
   (16, 1.43, 2146.17),
   (15, 1.21, 10977.08),
   (12, 2.83, 1748.02),
   (12, 3.26, 5088.63),
   (12, 5.27, 1194.45),
   (12, 2.08, 4694),
   (11, 0.77, 553.57),
   (10, 1.3, 6286.6),
   (10, 4.24, 1349.87),
   (9, 2.7, 242.73),
   (9, 5.64, 951.72),
   (8, 5.3, 2352.87),
   (6, 2.65, 9437.76),
   (6, 4.67, 4690.48)]

def earthPeriodicTermsL2 : List (Real × Real × Real) :=
  [(52919, 0, 0),
   (8720, 1.0721, 6283.0758),
   (309, 0.867, 12566.152),
   (27, 0.05, 3.52),
   (16, 5.19, 26.3),
   (16, 3.68, 155.42),
   (10, 0.76, 18849.23),
   (9, 2.06, 77713.77),
   (7, 0.83, 775.52),
   (5, 4.66, 1577.34),
   (4, 1.03, 7.11),
   (4, 3.44, 5573.14),
   (3, 5.14, 796.3),
   (3, 6.05, 5507.55),
   (3, 1.19, 242.73),
   (3, 6.12, 529.69),
   (3, 0.31, 398.15),
   (3, 2.28, 553.57),
   (2, 4.38, 5223.69),
   (2, 3.75, 0.98)]

def earthPeriodicTermsL3 : List (Real × Real × Real) :=
  [(289, 5.844, 6283.076),
   (35, 0, 0),
   (17, 5.49, 12566.15),
   (3, 5.2, 155.42),
   (1, 4.72, 3.52),
   (1, 5.3, 18849.23),
   (1, 5.97, 242.73)]

def earthPeriodicTermsL4 : List (Real × Real × Real) :=
  [(114, 3.142, 0),
   (8, 4.13, 6283.08),
   (1, 3.84, 12566.15)]

def earthPeriodicTermsL5 : List (Real × Real × Real) :=
  [(1, 3.14, 0)]

def earthPeriodicTermsB0 : List (Real × Real × Real) :=
  [(280, 3.199, 84334.662),
   (102, 5.422, 5507.553),
   (80, 3.88, 5223.69),
   (44, 3.7, 2352.87),
   (32, 4, 1577.34)]

def earthPeriodicTermsB1 : List (Real × Real × Real) :=
  [(9, 3.9, 5507.55),
   (6, 1.73, 5223.69)]

def earthPeriodicTermsR0 : List (Real × Real × Real) :=
  [(100013989, 0, 0),
   (1670700, 3.0984635, 6283.07585),
   (13956, 3.05525, 12566.1517),
   (3084, 5.1985, 77713.7715),
   (1628, 1.1739, 5753.3849),
   (1576, 2.8469, 7860.4194),
   (925, 5.453, 11506.77),
   (542, 4.564, 3930.21),
   (472, 3.661, 5884.927),
   (346, 0.964, 5507.553),
   (329, 5.9, 5223.694),
   (307, 0.299, 5573.143),
   (243, 4.273, 11790.629),
   (212, 5.847, 1577.344),
   (186, 5.022, 10977.079),
   (175, 3.012, 18849.228),
   (110, 5.055, 5486.778),
   (98, 0.89, 6069.78),
   (86, 5.69, 15720.84),
   (86, 1.27, 161000.69),
   (65, 0.27, 17260.15),
   (63, 0.92, 529.69),
   (57, 2.01, 83996.85),
   (56, 5.24, 71430.7),
   (49, 3.25, 2544.31),
   (47, 2.58, 775.52),
   (45, 5.54, 9437.76),
   (43, 6.01, 6275.96),
   (39, 5.36, 4694),
   (38, 2.39, 8827.39),
   (37, 0.83, 19651.05),
   (37, 4.9, 12139.55),
   (36, 1.67, 12036.46),
   (35, 1.84, 2942.46),
   (33, 0.24, 7084.9),
   (32, 0.18, 5088.63),
   (32, 1.78, 398.15),
   (28, 1.21, 6286.6),
   (28, 1.9, 6279.55),
   (26, 4.59, 10447.39)]

def earthPeriodicTermsR1 : List (Real × Real × Real) :=
  [(103019, 1.10749, 6283.07585),
   (1721, 1.0644, 12566.1517),
   (702, 3.142, 0),
   (32, 1.02, 18849.23),
   (31, 2.84, 5507.55),
   (25, 1.32, 5223.69),
   (18, 1.42, 1577.34),
   (10, 5.91, 10977.08),
   (9, 1.42, 6275.96),
   (9, 0.27, 5486.78)]

def earthPeriodicTermsR2 : List (Real × Real × Real) :=
  [(4359, 5.7846, 6283.0758),
   (124, 5.579, 12566.152),
   (12, 3.14, 0),
   (9, 3.63, 77713.77),
   (6, 1.87, 5573.14),
   (3, 5.47, 18849.23)]

def earthPeriodicTermsR3 : List (Real × Real × Real) :=
  [(145, 4.273, 6283.076),
   (7, 3.92, 12566.15)]

def earthPeriodicTermsR4 : List (Real × Real × Real) :=
  [(4, 2.56, 6283.08)]

def moonPeriodicTerms : List (Int × Int × Int × Int × Option Int × Option Int) :=
  [(0, 0, 1, 0, some 6288774, some (-20905355)),
   (2, 0, (-1), 0, some 1274027, some (-3699111)),
   (2, 0, 0, 0, some 658314, some (-2955968)),
   (0, 0, 2, 0, some 213618, some (-569925)),
   (0, 1, 0, 0, some (-185116), some 48888),
   (0, 0, 0, 2, some (-114332), some (-3149)),
   (2, 0, (-2), 0, some 58793, some 246158),
   (2, (-1), (-1), 0, some 57066, some (-152138)),
   (2, 0, 1, 0, some 53322, some (-170733)),
   (2, (-1), 0, 0, some 45758, some (-204586)),
   (0, 1, (-1), 0, some (-40923), some (-129620)),
   (1, 0, 0, 0, some (-34720), some 108743),
   (0, 1, 1, 0, some (-30383), some 104755),
   (2, 0, 0, (-2), some 15327, some 10321),
   (0, 0, 1, 2, some (-12528), none),
   (0, 0, 1, (-2), some 10980, some 79661),
   (4, 0, (-1), 0, some 10675, some (-34782)),
   (0, 0, 3, 0, some 10034, some (-23210)),
   (4, 0, (-2), 0, some 8548, some (-21636)),
   (2, 1, (-1), 0, some (-7888), some 24208),
   (2, 1, 0, 0, some (-6766), some 30824),
   (1, 0, (-1), 0, some (-5163), some (-8379)),
   (1, 1, 0, 0, some 4987, some (-16675)),
   (2, (-1), 1, 0, some 4036, some (-12831)),
   (2, 0, 2, 0, some 3994, some (-10445)),
   (4, 0, 0, 0, some 3861, some (-11650)),
   (2, 0, (-3), 0, some 3665, some 14403),
   (0, 1, (-2), 0, some (-2689), some (-7003)),
   (2, 0, (-1), 2, some (-2602), none),
   (2, (-1), (-2), 0, some 2390, some 10056),
   (1, 0, 1, 0, some (-2348), some 6322),
   (2, (-2), 0, 0, some 2236, some (-9884)),
   (0, 1, 2, 0, some (-2120), some 5751),
   (0, 2, 0, 0, some (-2069), none),
   (2, (-2), (-1), 0, some 2048, some (-4950)),
   (2, 0, 1, (-2), some (-1773), some 4130),
   (2, 0, 0, 2, some (-1595), none),
   (4, (-1), (-1), 0, some 1215, some (-3958)),
   (0, 0, 2, 2, some (-1110), none),
   (3, 0, (-1), 0, some (-892), some 3258),
   (2, 1, 1, 0, some (-810), some 2616),
   (4, (-1), (-2), 0, some 759, some (-1897)),
   (0, 2, (-1), 0, some (-713), some (-2117)),
   (2, 2, (-1), 0, some (-700), some 2354),
   (2, 1, (-2), 0, some 691, none),
   (2, (-1), 0, (-2), some 596, none),
   (4, 0, 1, 0, some 549, some (-1423)),
   (0, 0, 4, 0, some 537, some (-1117)),
   (4, (-1), 0, 0, some 520, some (-1571)),
   (1, 0, (-2), 0, some (-487), some (-1739)),
   (2, 1, 0, (-2), some (-399), none),
   (0, 0, 2, (-2), some (-381), some (-4421)),
   (1, 1, 1, 0, some 351, none),
   (3, 0, (-2), 0, some (-340), none),
   (4, 0, (-3), 0, some 330, none),
   (2, (-1), 2, 0, some 327, none),
   (0, 2, 1, 0, some (-323), some 1165),
   (1, 1, (-1), 0, some 299, none),
   (2, 0, 3, 0, some 294, none),
   (2, 0, (-1), (-2), none, some 8752)]

def periodicTermsForMoonLatitude : List (Int × Int × Int × Int × Int) :=
  [(0, 0, 0, 1, 5128122),
   (0, 0, 1, 1, 280602),
   (0, 0, 1, (-1), 277693),
   (2, 0, 0, (-1), 173237),
   (2, 0, (-1), 1, 55413),
   (2, 0, (-1), (-1), 46271),
   (2, 0, 0, 1, 32573),
   (0, 0, 2, 1, 17198),
   (2, 0, 1, (-1), 9266),
   (0, 0, 2, (-1), 8822),
   (2, (-1), 0, (-1), 8216),
   (2, 0, (-2), (-1), 4324),
   (2, 0, 1, 1, 4200),
   (2, 1, 0, (-1), (-3359)),
   (2, (-1), (-1), 1, 2463),
   (2, (-1), 0, 1, 2211),
   (2, (-1), (-1), (-1), 2065),
   (0, 1, (-1), (-1), (-1870)),
   (4, 0, (-1), (-1), 1828),
   (0, 1, 0, 1, (-1794)),
   (0, 0, 0, 3, (-1749)),
   (0, 1, (-1), 1, (-1565)),
   (1, 0, 0, 1, (-1491)),
   (0, 1, 1, 1, (-1475)),
   (0, 1, 1, (-1), (-1410)),
   (0, 1, 0, (-1), (-1344)),
   (1, 0, 0, (-1), (-1335)),
   (0, 0, 3, 1, 1107),
   (4, 0, 0, (-1), 1021),
   (4, 0, (-1), 1, 833),
   (0, 0, 1, (-3), 777),
   (4, 0, (-2), 1, 671),
   (2, 0, 0, (-3), 607),
   (2, 0, 2, (-1), 596),
   (2, (-1), 1, (-1), 491),
   (2, 0, (-2), 1, (-451)),
   (0, 0, 3, (-1), 439),
   (2, 0, 2, 1, 422),
   (2, 0, (-3), (-1), 421),
   (2, 1, (-1), 1, (-366)),
   (2, 1, 0, 1, (-351)),
   (4, 0, 0, 1, 331),
   (2, (-1), 1, 1, 315),
   (2, (-2), 0, (-1), 302),
   (0, 0, 1, 3, (-283)),
   (2, 1, 1, (-1), (-229)),
   (1, 1, 0, (-1), 223),
   (1, 1, 0, 1, 223),
   (0, 1, (-2), (-1), (-220)),
   (2, 1, (-1), (-1), (-220)),
   (1, 0, 1, 1, (-185)),
   (2, (-1), (-2), (-1), 181),
   (0, 1, 2, 1, (-177)),
   (4, 0, (-2), (-1), 176),
   (4, (-1), (-1), (-1), 166),
   (1, 0, 1, (-1), (-164)),
   (4, 0, 1, (-1), 132),
   (1, 0, (-1), (-1), (-119)),
   (4, (-1), 0, (-1), 115),
   (2, (-2), 0, 1, 107)]


/-! Nutation and obliquity engine (spa.py lines 687-693 and 756-773; the same
code appears in spa.py lines 122-150 and sampa.py lines 380-405). -/

/-- Load-time data transform: a missing (None) coefficient stands for zero
(spa.py lines 547-551). -/
def fillRow (row : Option ℝ × Option ℝ) : ℝ × ℝ := (row.1.getD 0, row.2.getD 0)

/-- Five fundamental arguments as polynomials in JCE, converted to radians
(spa.py lines 687-693). -/
def fundamentalArgs (jce : ℝ) : List ℝ :=
  [297.85036 + 445267.111480 * jce - 0.0019142 * jce ^ 2 + jce ^ 3 / 189474,
   357.52772 + 35999.050340 * jce - 0.0001603 * jce ^ 2 - jce ^ 3 / 300000,
   134.96298 + 477198.867398 * jce + 0.0086972 * jce ^ 2 + jce ^ 3 / 56250,
   93.27191 + 483202.017538 * jce - 0.0036825 * jce ^ 2 + jce ^ 3 / 327270,
   125.04452 - 1934.136261 * jce + 0.0020708 * jce ^ 2 + jce ^ 3 / 450000].map radians

/-- Weighted sum of the fundamental arguments for one nutation row
(spa.py lines 758-760). -/
def nutArg (jce : ℝ) (row : List ℤ) : ℝ :=
  (((fundamentalArgs jce).zip row).map (fun p => p.1 * (p.2 : ℝ))).sum

/-- Nutation in longitude, in degrees (spa.py lines 756-761 and 768). -/
def deltaPsi (jce : ℝ) : ℝ :=
  ((coefficientsForSinTerms.zip (coefficientsForDy.map fillRow)).map
    (fun p => (p.2.1 + p.2.2 * jce) * Real.sin (nutArg jce p.1))).sum / 36000000

/-- Nutation in obliquity, in degrees (spa.py lines 762-767 and 769). -/
def deltaEps (jce : ℝ) : ℝ :=
  ((coefficientsForSinTerms.zip (coefficientsForDe.map fillRow)).map
    (fun p => (p.2.1 + p.2.2 * jce) * Real.cos (nutArg jce p.1))).sum / 36000000

/-- Mean obliquity of the ecliptic in arcseconds (spa.py lines 770-772). -/
def meanObliquityArcsec (jme : ℝ) : ℝ :=
  let u := jme / 10
  84381.448 - 4680.93 * u - 1.55 * u ^ 2 + 1999.25 * u ^ 3 - 51.38 * u ^ 4 - 249.67 * u ^ 5
    - 39.05 * u ^ 6 + 7.12 * u ^ 7 + 27.87 * u ^ 8 + 5.79 * u ^ 9 + 2.45 * u ^ 10

/-- True obliquity of the ecliptic in degrees (spa.py line 773). -/
def trueObliquity (jme jce : ℝ) : ℝ := meanObliquityArcsec jme / 3600 + deltaEps jce

/-! Earth heliocentric model (spa.py lines 695-755; the radius part appears
again in sampa.py lines 102-122). -/

/-- Sum of one periodic-term table: amplitude times the cosine of
phase + frequency * jme (spa.py lines 695-746). -/
def seriesSum (table : List (ℝ × ℝ × ℝ)) (jme : ℝ) : ℝ :=
  (table.map (fun row => row.1 * Real.cos (row.2.1 + row.2.2 * jme))).sum

/-- Earth heliocentric longitude in radians (spa.py line 747). -/
def earthLValue (jme : ℝ) : ℝ :=
  (seriesSum earthPeriodicTermsL0 jme + seriesSum earthPeriodicTermsL1 jme * jme
    + seriesSum earthPeriodicTermsL2 jme * jme ^ 2 + seriesSum earthPeriodicTermsL3 jme * jme ^ 3
    + seriesSum earthPeriodicTermsL4 jme * jme ^ 4 + seriesSum earthPeriodicTermsL5 jme * jme ^ 5)
    / 100000000

/-- Earth heliocentric latitude in degrees (spa.py lines 748-749). -/
def earthBValue (jme : ℝ) : ℝ :=
  degrees ((seriesSum earthPeriodicTermsB0 jme + seriesSum earthPeriodicTermsB1 jme * jme)
    / 100000000)

/-- Sun-Earth distance in astronomical units (spa.py line 750; identical to
the value _sun_distance in sampa.py lines 102-123 computes). -/
def earthRadius (jme : ℝ) : ℝ :=
  (seriesSum earthPeriodicTermsR0 jme + seriesSum earthPeriodicTermsR1 jme * jme
    + seriesSum earthPeriodicTermsR2 jme * jme ^ 2 + seriesSum earthPeriodicTermsR3 jme * jme ^ 3
    + seriesSum earthPeriodicTermsR4 jme * jme ^ 4) / 100000000

/-- Geocentric solar longitude in degrees, mod 360 (spa.py lines 751-755). -/
def geocentricLongitude (jme : ℝ) : ℝ :=
  pymod (pymod (degrees (earthLValue jme)) 360 + 180) 360

/-- Geocentric solar latitude in degrees (spa.py line 753). -/
def geocentricLatitude (jme : ℝ) : ℝ := -(earthBValue jme)

/-! Shared ecliptic-to-equatorial and topocentric transforms
(spa.py lines 779-817; the same formulas are applied to the moon in
sampa.py lines 410-448). -/

/-- Right ascension from apparent ecliptic longitude, latitude and true
obliquity, in degrees mod 360 (spa.py lines 779-782). -/
def raFromEcliptic (lam b eps : ℝ) : ℝ :=
  pymod (degrees (pyAtan2
    (Real.sin (radians lam) * Real.cos (radians eps)
      - Real.tan (radians b) * Real.sin (radians eps))
    (Real.cos (radians lam)))) 360

/-- Declination from apparent ecliptic longitude, latitude and true obliquity,
in degrees (spa.py lines 783-785). -/
def decFromEcliptic (lam b eps : ℝ) : ℝ :=
  degrees (Real.arcsin (Real.sin (radians b) * Real.cos (radians eps)
    + Real.cos (radians b) * Real.sin (radians eps) * Real.sin (radians lam)))

/-- Observer's reduced latitude term u (spa.py line 789). -/
def observerU (latitude : ℝ) : ℝ :=
  degrees (Real.arctan (0.99664719 * Real.tan (radians latitude)))

/-- Observer term x (spa.py line 790). -/
def observerX (latitude elevation : ℝ) : ℝ :=
  Real.cos (radians (observerU latitude)) + elevation / 6378140 * Real.cos (radians latitude)

/-- Observer term y (spa.py line 791). -/
def observerY (latitude elevation : ℝ) : ℝ :=
  0.99664719 * Real.sin (radians (observerU latitude))
    + elevation / 6378140 * Real.sin (radians latitude)

/-- Parallax correction to the right ascension (spa.py lines 792-794), as a
function of the observer term x, the equatorial horizontal parallax, the local
hour angle and the geocentric declination. -/
def deltaAlpha (x2 xi h d : ℝ) : ℝ :=
  degrees (pyAtan2 (-x2 * Real.sin (radians xi) * Real.sin (radians h))
    (Real.cos (radians d) - x2 * Real.sin (radians xi) * Real.cos (radians h)))

/-- Topocentric declination (spa.py lines 796-798). -/
def topoDecFrom (x2 y xi h d da : ℝ) : ℝ :=
  degrees (pyAtan2 ((Real.sin (radians d) - y * Real.sin (radians xi)) * Real.cos (radians da))
    (Real.cos (radians d) - x2 * Real.sin (radians xi) * Real.cos (radians h)))

/-- Topocentric elevation before refraction (spa.py lines 800-801). -/
def topoElevationRaw (latitude dPrime hPrime : ℝ) : ℝ :=
  degrees (Real.arcsin (Real.sin (radians latitude) * Real.sin (radians dPrime)
    + Real.cos (radians latitude) * Real.cos (radians dPrime) * Real.cos (radians hPrime)))

/-- Astronomers' topocentric azimuth (westward from south), mod 360
(spa.py lines 809-812). -/
def topoAzimuthGamma (latitude dPrime hPrime : ℝ) : ℝ :=
  pymod (degrees (pyAtan2 (Real.sin (radians hPrime))
    (Real.cos (radians hPrime) * Real.sin (radians latitude)
      - Real.tan (radians dPrime) * Real.cos (radians latitude)))) 360

/-- Incidence angle on the tilted surface (spa.py lines 815-817). -/
def incidenceAngle (theta omega gamma2 gamma : ℝ) : ℝ :=
  degrees (Real.arccos (Real.cos (radians theta) * Real.cos (radians omega)
    + Real.sin (radians omega) * Real.sin (radians theta)
      * Real.cos (radians (gamma2 - gamma))))

/-! The SPA main pipeline (spa.py lines 671-828): everything in the first
returned tuple (incidence angle, topocentric zenith, azimuth, declination,
local hour angle, right ascension, elevation) plus the equation of time.  The
sunrise/transit/sunset appendix (lines 829-912) and the calendar
back-conversion (lines 914-935) are modelled separately where a claim needs
them (`spaSunTimesH0`). -/

/-- Result record for the main part of spa, in the order of the first returned
tuple of spa.py line 936, with the equation of time appended. -/
structure SpaOut where
  incidence : ℝ
  zenith : ℝ
  azimuth : ℝ
  topoDecl : ℝ
  topoHA : ℝ
  topoRA : ℝ
  elevation : ℝ
  eot : ℝ

/-- Main part of the spa function (spa.py lines 671-828). -/
def spaMain (year month : ℤ)
    (day hour minute second microsecond latitude longitude elevation pressure temperature
      omega gamma dt : ℝ) : SpaOut :=
  let jd := julianDay year month (dayFraction day hour minute second microsecond)
  let jc := jcOf jd
  let jce := jceOf (jdeOf jd dt)
  let jme := jmeOf jce
  let r := earthRadius jme
  let b := geocentricLatitude jme
  let theta2 := geocentricLongitude jme
  let dy := deltaPsi jce
  let e2 := trueObliquity jme jce
  let lam := theta2 + dy + -(20.4898 / (3600 * r))
  let nu := pymod (280.46061837 + 360.98564736629 * (jd - 2451545)
      + 0.000387933 * jc ^ 2 - jc ^ 3 / 38710000) 360
    + dy * Real.cos (radians e2)
  let a2 := raFromEcliptic lam b e2
  let d := decFromEcliptic lam b e2
  let h := pymod (nu + longitude - a2) 360
  let xi := 8.794 / (3600 * r)
  let x2 := observerX latitude elevation
  let y := observerY latitude elevation
  let da := deltaAlpha x2 xi h d
  let aPrime := a2 + da
  let dPrime := topoDecFrom x2 y xi h d da
  let hPrime := h - da
  let e0 := topoElevationRaw latitude dPrime hPrime
  let e := e0 + refractionSpa pressure temperature e0
  let theta := 90 - e
  let gamma2 := topoAzimuthGamma latitude dPrime hPrime
  let f := pymod (gamma2 + 180) 360
  let i := incidenceAngle theta omega gamma2 gamma
  let eot := spaEotMinutes jme a2 (dy * Real.cos (radians e2))
  ⟨i, theta, f, dPrime, hPrime, aPrime, e, eot⟩

/-! The lunar position pipeline of sampa (sampa.py lines 171-448). -/

/-- One row of the lunar longitude/distance table after the load-time
None-to-zero fill (sampa.py lines 238-239). -/
structure MoonRow where
  cd : ℤ
  cm : ℤ
  cmp : ℤ
  cf : ℤ
  ampL : ℤ
  ampR : ℤ

/-- Lunar longitude/distance rows with missing amplitudes replaced by zero
(sampa.py lines 238-239). -/
def moonRows : List MoonRow :=
  moonPeriodicTerms.map (fun row => ⟨row.1, row.2.1, row.2.2.1, row.2.2.2.1,
    (row.2.2.2.2.1).getD 0, (row.2.2.2.2.2).getD 0⟩)

/-- Moon fundamental arguments (l-prime, d, m, m-prime, f), each reduced mod
360 (sampa.py lines 317-328). -/
def moonFundamentals (jce : ℝ) : ℝ × ℝ × ℝ × ℝ × ℝ :=
  let lPrime := 218.3164477 + 481267.88123421 * jce - 0.0015786 * jce ^ 2
    + jce ^ 3 / 538841 - jce ^ 4 / 65194000
  let d := 297.8501921 + 445267.1114034 * jce - 0.0018819 * jce ^ 2
    + jce ^ 3 / 545868 - jce ^ 4 / 113065000
  let m := 357.5291092 + 35999.0502909 * jce - 0.0001536 * jce ^ 2 + jce ^ 3 / 24490000
  let mPrime := 134.9633964 + 477198.8675055 * jce + 0.0087414 * jce ^ 2
    + jce ^ 3 / 69699 - jce ^ 4 / 14712000
  let f := 93.2720950 + 483202.0175233 * jce - 0.0036539 * jce ^ 2
    - jce ^ 3 / 3526000 + jce ^ 4 / 863310000
  (pymod lPrime 360, pymod d 360, pymod m 360, pymod mPrime 360, pymod f 360)

/-- Eccentricity factor e (sampa.py line 323). -/
def moonE (jce : ℝ) : ℝ := 1 - 0.002516 * jce - 0.0000074 * jce ^ 2

/-- Eccentricity-power scaling of a lunar term by the m multiplier
(sampa.py lines 332-336). -/
def moonEmult (e : ℝ) (cm : ℤ) : ℝ :=
  if |cm| = 1 then e else if |cm| = 2 then e ^ 2 else 1

/-- Lunar longitude series sum l (sampa.py lines 330-339). -/
def moonL (jce d m mp f : ℝ) : ℝ :=
  (moonRows.map (fun row => (row.ampL : ℝ) * moonEmult (moonE jce) row.cm
    * Real.sin (radians ((row.cd : ℝ) * d + (row.cm : ℝ) * m + (row.cmp : ℝ) * mp
      + (row.cf : ℝ) * f)))).sum

/-- Lunar distance series sum r (sampa.py lines 341-350). -/
def moonRSum (jce d m mp f : ℝ) : ℝ :=
  (moonRows.map (fun row => (row.ampR : ℝ) * moonEmult (moonE jce) row.cm
    * Real.cos (radians ((row.cd : ℝ) * d + (row.cm : ℝ) * m + (row.cmp : ℝ) * mp
      + (row.cf : ℝ) * f)))).sum

/-- Lunar latitude series sum b (sampa.py lines 352-361). -/
def moonB (jce d m mp f : ℝ) : ℝ :=
  (periodicTermsForMoonLatitude.map (fun row => (row.2.2.2.2 : ℝ)
    * moonEmult (moonE jce) row.2.1
    * Real.sin (radians ((row.1 : ℝ) * d + (row.2.1 : ℝ) * m + (row.2.2.1 : ℝ) * mp
      + (row.2.2.2.1 : ℝ) * f)))).sum

/-- Geocentric lunar coordinates (apparent longitude before nutation, latitude,
Earth-Moon distance in km, equatorial horizontal parallax in degrees)
(sampa.py lines 363-378). -/
def sampaMoonGeocentric (jce : ℝ) : ℝ × ℝ × ℝ × ℝ :=
  let fund := moonFundamentals jce
  let lPrime := fund.1
  let d := fund.2.1
  let m := fund.2.2.1
  let mPrime := fund.2.2.2.1
  let f := fund.2.2.2.2
  let l := moonL jce d m mPrime f
  let r := moonRSum jce d m mPrime f
  let b := moonB jce d m mPrime f
  let a1 := 119.75 + 131.849 * jce
  let a2 := 53.09 + 479264.29 * jce
  let a3 := 313.45 + 481266.484 * jce
  let dl := 3958 * Real.sin (radians a1) + 1962 * Real.sin (radians (lPrime - f))
    + 318 * Real.sin (radians a2)
  let db := -2235 * Real.sin (radians lPrime) + 382 * Real.sin (radians a3)
    + 175 * Real.sin (radians (a1 - f)) + 175 * Real.sin (radians (a1 + f))
    + 127 * Real.sin (radians (lPrime - mPrime)) - 115 * Real.sin (radians (lPrime + mPrime))
  let lSmallPrime := pymod (lPrime + (l + dl) / 1000000) 360
  let beta := pymod ((b + db) / 1000000) 360
  let delta := 385000.56 + r / 1000
  let p := degrees (Real.arcsin (6378.14 / delta))
  (lSmallPrime, beta, delta, p)

/-- Sun-Earth distance helper _sun_distance of sampa.py (lines 32-123): the
same Julian clock and R series as spa, yielding `earthRadius`. -/
def sunDistance (year month : ℤ) (day hour minute second microsecond dt : ℝ) : ℝ :=
  earthRadius (jmeOf (jceOf (jdeOf
    (julianDay year month (dayFraction day hour minute second microsecond)) dt)))

/-- Result record for sampa, in the order of the returned tuples of
sampa.py line 497.  The eighth element of the first tuple is documented as the
true obliquity but line 441 of the source has rebound `e` to the refraction-
corrected lunar elevation by the time it is returned; the embedding reproduces
the code, hence the field name `eOut`. -/
structure SampaOut where
  sunZenith : ℝ
  sunAzimuth : ℝ
  moonZenith : ℝ
  moonAzimuth : ℝ
  moonDec : ℝ
  moonHA : ℝ
  moonRA : ℝ
  eOut : ℝ
  rS : ℝ
  rM : ℝ
  aSul : ℝ
  aSulPercent : ℝ
  irradiance : SampaIe
  note : String

/-- The sampa function (sampa.py lines 126-497), with the solar side invoked
exactly as the source does on lines 452-453: spa on the same date, time,
observer and dt, with omega = 0 and gamma = 0. -/
def sampaMain (year month : ℤ)
    (day hour minute second microsecond latitude longitude elevation pressure temperature
      ozone water aerosol albedo ba k1 dt : ℝ) : SampaOut :=
  let jd := julianDay year month (dayFraction day hour minute second microsecond)
  let jc := jcOf jd
  let jce := jceOf (jdeOf jd dt)
  let jme := jmeOf jce
  let geo := sampaMoonGeocentric jce
  let beta := geo.2.1
  let delta := geo.2.2.1
  let p := geo.2.2.2
  let dy := deltaPsi jce
  let e := trueObliquity jme jce
  let lSmall := geo.1 + dy
  let nu := pymod ((280.46061837 + 360.98564736629 * (jd - 2451545)
      + 0.000387933 * jc ^ 2 - jc ^ 3 / 38710000)
    + dy * Real.cos (radians e)) 360
  let a2 := raFromEcliptic lSmall beta e
  let d := decFromEcliptic lSmall beta e
  let h := pymod (nu + longitude - a2) 360
  let x2 := observerX latitude elevation
  let y := observerY latitude elevation
  let da := deltaAlpha x2 p h d
  let aPrime := a2 + da
  let dPrime := topoDecFrom x2 y p h d da
  let hPrime := h - da
  let e0 := topoElevationRaw latitude dPrime hPrime
  let eElev := e0 + refractionSampa pressure temperature e0
  let thetaM := 90 - eElev
  let gammaM := topoAzimuthGamma latitude dPrime hPrime
  let fM := pymod (gammaM + 180) 360
  let s := spaMain year month day hour minute second microsecond latitude longitude
    elevation pressure temperature 0 0 dt
  let thetaS := s.zenith
  let fS := s.azimuth
  let ems := degrees (Real.arccos (Real.cos (radians thetaS) * Real.cos (radians thetaM)
    + Real.sin (radians thetaS) * Real.sin (radians thetaM)
      * Real.cos (radians (fS - fM))))
  let rcs := sunDistance year month day hour minute second microsecond dt
  let rS := 959.63 / (3600 * rcs)
  let rM := (358473400 * (1 + Real.sin (radians eElev) * Real.sin (radians p)))
    / (3600 * delta)
  ⟨thetaS, fS, thetaM, fM, dPrime, hPrime, aPrime, eElev, rS, rM,
    sulArea ems rM rS, sulPercent ems rM rS,
    sampaIrradiance ems rM rS rcs thetaS pressure ozone water aerosol albedo ba k1,
    eclipseNote ems rM rS⟩

/-! The SOLPOS position pipeline (solpos.py lines 71-146 and 167-179):
day number, ephemeris, declination, right ascension, hour angle, zenith and
azimuth.  The parts no claim touches (shadow-band factor, equation of time,
sunrise/sunset minutes, refraction, air mass, tilt irradiance; lines 147-166
and 180-223) are not modelled.  The recomputation of `month` from the day
number on lines 80-82 is dead code (the variable is never read afterwards) and
is omitted. -/

/-- Cumulative days before each month (solpos.py lines 71-72). -/
def monthDays : List (List ℤ) :=
  [[0, 0, 31, 59, 90, 120, 151, 181, 212, 243, 273, 304, 334],
   [0, 0, 31, 60, 91, 121, 152, 182, 213, 244, 274, 305, 335]]

/-- Hour-angle wraparound (solpos.py lines 114-118). -/
def hourAngleWrap (lmst rascen : ℝ) : ℝ :=
  let hrang0 := lmst - rascen
  if hrang0 < -180 then hrang0 + 360
  else if hrang0 > 180 then hrang0 - 360 else hrang0

/-- Azimuth computation (solpos.py lines 167-179), as a function of the
cosine-of-elevation-times-cosine-of-latitude product, the sine of the
elevation, the sine of the latitude, the sine of the declination and the hour
angle. -/
def solposAzimuth (cecl se sl sd hrang : ℝ) : ℝ :=
  if 0.001 ≤ |cecl| then
    let ca0 := (se * sl - sd) / cecl
    let ca := if ca0 > 1 then 1 else if ca0 < -1 then -1 else ca0
    let az0 := 180 - degrees (Real.arccos ca)
    if hrang > 0 then 360 - az0 else az0
  else 180

/-- Result record for the position part of solpos. -/
structure SolposCore where
  dayAngle : ℝ
  declin : ℝ
  rascen : ℝ
  hrang : ℝ
  zenetr : ℝ
  elevetr : ℝ
  azim : ℝ

/-- Position part of the solpos function (solpos.py lines 71-146, 167-179). -/
def solposCore (year : ℤ) (month : ℕ)
    (day : ℤ) (hour minute second timezone latitude longitude interval : ℝ) : SolposCore :=
  let leapYear := year % 4 = 0 ∧ (year % 100 ≠ 0 ∨ year % 400 = 0)
  let daynum0 := day + (monthDays.getD 0 []).getD month 0
  let daynum := if leapYear ∧ 2 < month then daynum0 + 1 else daynum0
  let dayAngle := 360 * ((daynum : ℝ) - 1) / 365
  let utime := (hour * 3600 + minute * 60 + second - interval / 2) / 3600 - timezone
  let delta := (year : ℝ) - 1949
  let leap := pyInt (delta / 4)
  let julday := 32916.5 + delta * 365 + (leap : ℝ) + (daynum : ℝ) + utime / 24
  let ectime := julday - 51545
  let mnlong := pymod (280.460 + 0.9856474 * ectime) 360
  let mnanom := pymod (357.528 + 0.9856003 * ectime) 360
  let eclong := pymod (mnlong + 1.915 * Real.sin (radians mnanom)
    + 0.020 * Real.sin (radians (2 * mnanom))) 360
  let ecobli := 23.439 - 0.0000004 * ectime
  let declin := degrees (Real.arcsin (Real.sin (radians ecobli) * Real.sin (radians eclong)))
  let top := Real.cos (radians ecobli) * Real.sin (radians eclong)
  let bottom := Real.cos (radians eclong)
  let rascen := pymod (degrees (pyAtan2 top bottom)) 360
  let gmst := pymod (6.697375 + 0.0657098242 * ectime + utime) 24
  let lmst := pymod (gmst * 15 + longitude) 360
  let hrang := hourAngleWrap lmst rascen
  let cd := Real.cos (radians declin)
  let ch := Real.cos (radians hrang)
  let cl := Real.cos (radians latitude)
  let sd := Real.sin (radians declin)
  let sl := Real.sin (radians latitude)
  let cz0 := sd * sl + cd * cl * ch
  let cz := if |cz0| > 1 then (if 0 ≤ cz0 then 1 else -1) else cz0
  let zenetr0 := degrees (Real.arccos cz)
  let zenetr := if zenetr0 > 99 then 99 else zenetr0
  let elevetr := 90 - zenetr
  let ce := Real.cos (radians elevetr)
  let se := Real.sin (radians elevetr)
  let cecl := ce * cl
  let azim := solposAzimuth cecl se sl sd hrang
  ⟨dayAngle, declin, rascen, hrang, zenetr, elevetr, azim⟩

end

/-! Helper lemmas -/

theorem pymod_eq_mul_fract (x : ℝ) {y : ℝ} (hy : y ≠ 0) : pymod x y = y * Int.fract (x / y) := by
  unfold pymod Int.fract
  field_simp

theorem pymod_nonneg (x : ℝ) {y : ℝ} (hy : 0 < y) : 0 ≤ pymod x y := by
  rw [pymod_eq_mul_fract x hy.ne']
  exact mul_nonneg hy.le (Int.fract_nonneg _)

theorem pymod_lt (x : ℝ) {y : ℝ} (hy : 0 < y) : pymod x y < y := by
  rw [pymod_eq_mul_fract x hy.ne']
  calc y * Int.fract (x / y) < y * 1 := by
        exact mul_lt_mul_of_pos_left (Int.fract_lt_one _) hy
    _ = y := mul_one y

theorem pymod_of_mem {x y : ℝ} (h0 : 0 ≤ x) (h1 : x < y) : pymod x y = x := by
  have hy : 0 < y := lt_of_le_of_lt h0 h1
  have : ⌊x / y⌋ = 0 := by
    rw [Int.floor_eq_zero_iff]
    constructor
    · exact div_nonneg h0 hy.le
    · rw [div_lt_one hy]; exact h1
  unfold pymod
  simp [this]

theorem pyInt_of_nonneg {x : ℝ} (h : 0 ≤ x) : pyInt x = ⌊x⌋ := by rw [pyInt, if_pos h]

theorem pyInt_of_neg {x : ℝ} (h : x < 0) : pyInt x = -⌊-x⌋ := by
  rw [pyInt, if_neg (not_le.mpr h)]

theorem pyInt_nonneg_eq (x : ℝ) (z : ℤ) (h0 : 0 ≤ x) (h1 : (z : ℝ) ≤ x) (h2 : x < z + 1) :
    pyInt x = z := by
  rw [pyInt_of_nonneg h0]
  exact Int.floor_eq_iff.mpr ⟨h1, h2⟩

theorem pyInt_neg_eq (x : ℝ) (z : ℤ) (h0 : x < 0) (h1 : ((-z : ℤ) : ℝ) ≤ -x)
    (h2 : -x < (-z : ℤ) + 1) : pyInt x = z := by
  rw [pyInt_of_neg h0, Int.floor_eq_iff.mpr ⟨h1, h2⟩]
  simp

theorem pyAtan2_mem (y x : ℝ) : -Real.pi < pyAtan2 y x ∧ pyAtan2 y x ≤ Real.pi :=
  ⟨Complex.neg_pi_lt_arg _, Complex.arg_le_pi _⟩

theorem degrees_pyAtan2_mem (y x : ℝ) :
    -180 < degrees (pyAtan2 y x) ∧ degrees (pyAtan2 y x) ≤ 180 := by
  have hpi := Real.pi_pos
  have hc : (0 : ℝ) < 180 / Real.pi := by positivity
  obtain ⟨h1, h2⟩ := pyAtan2_mem y x
  constructor
  · have := mul_lt_mul_of_pos_right h1 hc
    calc (-180 : ℝ) = -Real.pi * (180 / Real.pi) := by field_simp <;> ring
      _ < degrees (pyAtan2 y x) := this
  · calc degrees (pyAtan2 y x) ≤ Real.pi * (180 / Real.pi) :=
        mul_le_mul_of_nonneg_right h2 hc.le
      _ = 180 := by field_simp <;> ring

theorem degrees_arccos_mem (c : ℝ) :
    0 ≤ degrees (Real.arccos c) ∧ degrees (Real.arccos c) ≤ 180 := by
  have hpi := Real.pi_pos
  have hc : (0 : ℝ) < 180 / Real.pi := by positivity
  constructor
  · exact mul_nonneg (Real.arccos_nonneg c) hc.le
  · calc degrees (Real.arccos c) ≤ Real.pi * (180 / Real.pi) :=
        mul_le_mul_of_nonneg_right (Real.arccos_le_pi c) hc.le
      _ = 180 := by field_simp <;> ring

theorem eotWrap_cases (em : ℝ) :
    eotWrap em = em ∨ eotWrap em = em - 1440 ∨ eotWrap em = em + 1440 := by
  unfold eotWrap
  split_ifs
  · exact Or.inr (Or.inl rfl)
  · exact Or.inr (Or.inr rfl)
  · exact Or.inl rfl

theorem eotWrap_mem_iff (em : ℝ) :
    (-20 ≤ eotWrap em ∧ eotWrap em ≤ 20) ↔
      ((-20 ≤ em ∧ em ≤ 20) ∨ (1420 ≤ em ∧ em ≤ 1460) ∨ (-1460 ≤ em ∧ em ≤ -1420)) := by
  unfold eotWrap
  split_ifs with h1 h2
  · constructor
    · rintro ⟨ha, hb⟩
      exact Or.inr (Or.inl ⟨by linarith, by linarith⟩)
    · rintro (⟨ha, hb⟩ | ⟨ha, hb⟩ | ⟨ha, hb⟩) <;> constructor <;> linarith
  · constructor
    · rintro ⟨ha, hb⟩
      exact Or.inr (Or.inr ⟨by linarith, by linarith⟩)
    · rintro (⟨ha, hb⟩ | ⟨ha, hb⟩ | ⟨ha, hb⟩) <;> constructor <;> linarith
  · constructor
    · rintro ⟨ha, hb⟩
      exact Or.inl ⟨by linarith, by linarith⟩
    · rintro (⟨ha, hb⟩ | ⟨ha, hb⟩ | ⟨ha, hb⟩) <;> constructor <;> linarith

/-! Claim C1: spa's circumpolar sunrise/sunset branch
(spa.py lines 842-854). -/

/-- Claim C1 (code_bug): the claim states that when the magnitude of the acos
argument for the hour-angle half-range exceeds 1 the function still returns a
populated tuple carrying the note string, with no exception.  In the code,
however, both branches call `math.acos(acos_arguement)`; when the magnitude
exceeds 1 that call raises ValueError before the note is assigned, so spa
propagates an exception: the evaluation of the branch is `none`, never a
populated value with the note. -/
theorem c1_sun_times_acos_raises (a : ℝ) (h : 1 < |a|) : spaSunTimesH0 a = none := by
  have h1 : ¬ |a| ≤ 1 := not_le.mpr h
  simp only [spaSunTimesH0, pyAcos, if_neg h1]
  rfl

/-- Witness for C1 at the concrete acos argument 2. -/
theorem c1_sun_times_acos_raises_witness : 1 < |(2 : ℝ)| ∧ spaSunTimesH0 2 = none :=
  ⟨by norm_num, c1_sun_times_acos_raises 2 (by norm_num)⟩

/-! Claim C2: the refraction gate in sampa's lunar branch
(sampa.py lines 432-441, spa.py lines 800-807). -/

/-- Counterexample for claim C2: at lunar topocentric elevation -1 degree
(below the -(0.26667+0.5667) degree depression threshold) the code's lunar
refraction correction is 0, while the unconditional formula the claim asserts
is strictly positive; so the refraction correction is not applied
unconditionally on the lunar side. -/
theorem c2_counterexample :
    refractionSampa 1010 10 (-1) = 0 ∧ 0 < specLunarRefraction 1010 10 (-1) ∧
      refractionSampa 1010 10 (-1) ≠ specLunarRefraction 1010 10 (-1) := by
  have h0 : refractionSampa 1010 10 (-1) = 0 := by
    rw [refractionSampa, if_neg (by norm_num)]
  have harg : (-1 : ℝ) + 10.3 / (-1 + 5.11) = 619 / 411 := by norm_num
  have hpos : 0 < Real.tan (radians (619 / 411)) := by
    apply Real.tan_pos_of_pos_of_lt_pi_div_two
    · unfold radians
      positivity
    · unfold radians
      nlinarith [Real.pi_pos]
  have h1 : 0 < specLunarRefraction 1010 10 (-1) := by
    unfold specLunarRefraction
    rw [harg]
    positivity
  exact ⟨h0, h1, by rw [h0]; exact fun hh => absurd hh.symm (ne_of_gt h1)⟩

/-- Claim C2 as amended: the lunar refraction step of sampa is textually the
same gated correction as the solar one in spa — it is zero below the
-(0.26667+0.5667) degree depression threshold applied to the lunar topocentric
elevation, and equals the unconditional empirical formula at or above that
threshold. -/
theorem c2_lunar_refraction_gated (p t e0 : ℝ) :
    refractionSampa p t e0 = refractionSpa p t e0 ∧
    (e0 < -1 * (0.26667 + 0.5667) → refractionSampa p t e0 = 0) ∧
    (-1 * (0.26667 + 0.5667) ≤ e0 → refractionSampa p t e0 = specLunarRefraction p t e0) := by
  refine ⟨rfl, ?_, ?_⟩
  · intro h
    rw [refractionSampa, if_neg (not_le.mpr h)]
  · intro h
    rw [refractionSampa, if_pos h, specLunarRefraction]

/-- Witness for the amended claim C2 at pressure 1010, temperature 10,
lunar elevation -1. -/
theorem c2_lunar_refraction_gated_witness :
    (-1 : ℝ) < -1 * (0.26667 + 0.5667) ∧ refractionSampa 1010 10 (-1) = 0 :=
  ⟨by norm_num, (c2_lunar_refraction_gated 1010 10 (-1)).2.1 (by norm_num)⟩

/-! Claim C4: the Julian Day computation (spa.py lines 671-681). -/

/-- Counterexample for claim C4: at year -100, month 6, day 1 (inside the
documented -2000..6000 validity range) the code's Julian Day differs from the
spec formula read with the mathematical floor, because Python's `int()`
truncates toward zero: the code gets b = 3 where the floor formula gives
b = 2. -/
theorem c4_counterexample : julianDay (-100) 6 1 ≠ specJulianDay (-100) 6 1 := by
  have hfy : foldYear (-100) 6 = -100 := by norm_num [foldYear]
  have hfm : foldMonth (-100) 6 = 6 := by norm_num [foldMonth]
  have hA : julianDay (-100) 6 1 = 1684687.5 := by
    simp only [julianDay, hfy, hfm]
    rw [pyInt_neg_eq (((-100 : ℤ) : ℝ) / 100) (-1) (by norm_num) (by norm_num) (by norm_num)]
    rw [pyInt_neg_eq (((-1 : ℤ) : ℝ) / 4) 0 (by norm_num) (by norm_num) (by norm_num)]
    rw [pyInt_nonneg_eq (365.25 * (((-100 : ℤ) : ℝ) + 4716)) 1685994 (by norm_num)
      (by norm_num) (by norm_num)]
    rw [pyInt_nonneg_eq (30.6001 * (((6 : ℤ) : ℝ) + 1)) 214 (by norm_num) (by norm_num)
      (by norm_num)]
    norm_num
  have hB : specJulianDay (-100) 6 1 = 1684686.5 := by
    simp only [specJulianDay, hfy, hfm]
    rw [show ⌊((-100 : ℤ) : ℝ) / 100⌋ = -1 from Int.floor_eq_iff.mpr ⟨by norm_num, by norm_num⟩]
    rw [show ⌊((-1 : ℤ) : ℝ) / 4⌋ = -1 from Int.floor_eq_iff.mpr ⟨by norm_num, by norm_num⟩]
    rw [show ⌊(365.25 : ℝ) * (((-100 : ℤ) : ℝ) + 4716)⌋ = 1685994 from
      Int.floor_eq_iff.mpr ⟨by norm_num, by norm_num⟩]
    rw [show ⌊(30.6001 : ℝ) * (((6 : ℤ) : ℝ) + 1)⌋ = 214 from
      Int.floor_eq_iff.mpr ⟨by norm_num, by norm_num⟩]
    norm_num
  rw [hA, hB]
  norm_num

/-- Claim C4 as amended: the internally computed Julian Day equals the spec
formula (mathematical floor, Jan/Feb folded, time folded into the fractional
day) whenever the folded year is nonnegative; Python's `int()` truncation only
departs from the floor reading for negative folded years (and then only for
century years whose century is not divisible by 4, as the counterexample year
-100 shows). -/
theorem c4_julian_day_agrees_on_nonneg_years (y m : ℤ) (dayFrac : ℝ) (hm : 1 ≤ m)
    (hy : 0 ≤ foldYear y m) : julianDay y m dayFrac = specJulianDay y m dayFrac := by
  have hyR : (0 : ℝ) ≤ ((foldYear y m : ℤ) : ℝ) := by exact_mod_cast hy
  have hmZ : 3 ≤ foldMonth y m := by
    unfold foldMonth
    split <;> omega
  have hmR : (3 : ℝ) ≤ ((foldMonth y m : ℤ) : ℝ) := by exact_mod_cast hmZ
  have h1 : (0 : ℝ) ≤ ((foldYear y m : ℤ) : ℝ) / 100 := by positivity
  have h2 : (0 : ℝ) ≤ 365.25 * (((foldYear y m : ℤ) : ℝ) + 4716) := by nlinarith
  have h3 : (0 : ℝ) ≤ 30.6001 * (((foldMonth y m : ℤ) : ℝ) + 1) := by nlinarith
  have ha : (0 : ℤ) ≤ ⌊((foldYear y m : ℤ) : ℝ) / 100⌋ := Int.floor_nonneg.mpr h1
  have h4 : (0 : ℝ) ≤ ((⌊((foldYear y m : ℤ) : ℝ) / 100⌋ : ℤ) : ℝ) / 4 := by
    have : (0 : ℝ) ≤ ((⌊((foldYear y m : ℤ) : ℝ) / 100⌋ : ℤ) : ℝ) := by exact_mod_cast ha
    positivity
  simp only [julianDay, specJulianDay, pyInt_of_nonneg h1, pyInt_of_nonneg h2,
    pyInt_of_nonneg h3, pyInt_of_nonneg h4]

/-- Witness for the amended claim C4 at year 2000, month 6, fractional day
1.5. -/
theorem c4_julian_day_agrees_on_nonneg_years_witness :
    (1 : ℤ) ≤ 6 ∧ (0 : ℤ) ≤ foldYear 2000 6 ∧
      julianDay 2000 6 1.5 = specJulianDay 2000 6 1.5 :=
  ⟨by norm_num, by norm_num [foldYear],
    c4_julian_day_agrees_on_nonneg_years 2000 6 1.5 (by norm_num) (by norm_num [foldYear])⟩

/-! Claim C5: the equation-of-time normalization (spa.py lines 820-828). -/

/-- Counterexample for claim C5: the single plus-or-minus 1440-minute
wraparound does not put every raw value into [-20, 20].  With jme = 0 the mean
longitude term is 280.4664567; with apparent right ascension 105.4607384 (a
value in the [0,360) range line 782 produces) and a zero nutation term the raw
equation of time is 700 minutes, and the returned value is 700 - 1440 = -740,
outside [-20, 20]. -/
theorem c5_counterexample :
    spaEotMinutes 0 105.4607384 0 = -740 ∧ spaEotMinutes 0 105.4607384 0 < -20 := by
  have hml : spaMeanLongitude 0 = 280.4664567 := by
    unfold spaMeanLongitude
    rw [show (280.4664567 + 360007.6982779 * 0 + 0.03032028 * (0:ℝ) ^ 2 + (0:ℝ) ^ 3 / 49931
      - (0:ℝ) ^ 4 / 15300 - (0:ℝ) ^ 5 / 2000000) = 280.4664567 by norm_num]
    exact pymod_of_mem (by norm_num) (by norm_num)
  have h : spaEotMinutes 0 105.4607384 0 = -740 := by
    unfold spaEotMinutes
    rw [hml]
    rw [show (280.4664567 - 0.0057183 - 105.4607384 + (0:ℝ)) * 4 = 700 by norm_num]
    rw [eotWrap, if_pos (by norm_num)]
    norm_num
  exact ⟨h, by rw [h]; norm_num⟩

/-- Claim C5 as amended: spa's equation of time is the raw value
(mean longitude mod 360, minus 0.0057183, minus the apparent right ascension,
plus the nutation term, times 4) adjusted by at most one plus-or-minus
1440-minute wraparound; the result lies in [-20, 20] exactly when that raw
value lies in [-20, 20], [1420, 1460] or [-1460, -1420], not for every
input. -/
theorem c5_eot_single_wrap (jme a2 dycos : ℝ) :
    (spaEotMinutes jme a2 dycos = (spaMeanLongitude jme - 0.0057183 - a2 + dycos) * 4 ∨
     spaEotMinutes jme a2 dycos =
       (spaMeanLongitude jme - 0.0057183 - a2 + dycos) * 4 - 1440 ∨
     spaEotMinutes jme a2 dycos =
       (spaMeanLongitude jme - 0.0057183 - a2 + dycos) * 4 + 1440) ∧
    ((-20 ≤ spaEotMinutes jme a2 dycos ∧ spaEotMinutes jme a2 dycos ≤ 20) ↔
      ((-20 ≤ (spaMeanLongitude jme - 0.0057183 - a2 + dycos) * 4 ∧
          (spaMeanLongitude jme - 0.0057183 - a2 + dycos) * 4 ≤ 20) ∨
       (1420 ≤ (spaMeanLongitude jme - 0.0057183 - a2 + dycos) * 4 ∧
          (spaMeanLongitude jme - 0.0057183 - a2 + dycos) * 4 ≤ 1460) ∨
       (-1460 ≤ (spaMeanLongitude jme - 0.0057183 - a2 + dycos) * 4 ∧
          (spaMeanLongitude jme - 0.0057183 - a2 + dycos) * 4 ≤ -1420))) :=
  ⟨eotWrap_cases _, eotWrap_mem_iff _⟩

/-! Claim C9: sampa's solar outputs are spa's (sampa.py lines 451-455, 497). -/

/-- Claim C9 (confirmed): the sun topocentric zenith and azimuth angles
returned by sampa are exactly the topocentric zenith and azimuth of spa
invoked on the same date, time, observer location, elevation, pressure,
temperature and dt, with surface slope omega = 0 and surface azimuth rotation
gamma = 0; this is what sampa.py lines 452-455 and 497 do. -/
theorem c9_sampa_sun_equals_spa (year month : ℤ)
    (day hour minute second microsecond latitude longitude elevation pressure temperature
      ozone water aerosol albedo ba k1 dt : ℝ) :
    (sampaMain year month day hour minute second microsecond latitude longitude elevation
        pressure temperature ozone water aerosol albedo ba k1 dt).sunZenith =
      (spaMain year month day hour minute second microsecond latitude longitude elevation
        pressure temperature 0 0 dt).zenith ∧
    (sampaMain year month day hour minute second microsecond latitude longitude elevation
        pressure temperature ozone water aerosol albedo ba k1 dt).sunAzimuth =
      (spaMain year month day hour minute second microsecond latitude longitude elevation
        pressure temperature 0 0 dt).azimuth :=
  ⟨rfl, rfl⟩

/-! Claim C8: ranges of the angular outputs. -/

theorem raFromEcliptic_mem (l b e : ℝ) :
    0 ≤ raFromEcliptic l b e ∧ raFromEcliptic l b e < 360 := by
  unfold raFromEcliptic
  exact ⟨pymod_nonneg _ (by norm_num), pymod_lt _ (by norm_num)⟩

theorem deltaAlpha_mem (x xi h d : ℝ) :
    -180 < deltaAlpha x xi h d ∧ deltaAlpha x xi h d ≤ 180 := by
  unfold deltaAlpha
  exact degrees_pyAtan2_mem _ _

theorem hourAngleWrap_mem {lmst rascen : ℝ} (h1 : 0 ≤ lmst) (h2 : lmst < 360)
    (h3 : 0 ≤ rascen) (h4 : rascen < 360) :
    -180 ≤ hourAngleWrap lmst rascen ∧ hourAngleWrap lmst rascen ≤ 180 := by
  unfold hourAngleWrap
  dsimp only
  split_ifs with ha hb <;> constructor <;> linarith

theorem solposAzimuth_mem (cecl se sl sd hrang : ℝ) :
    0 ≤ solposAzimuth cecl se sl sd hrang ∧ solposAzimuth cecl se sl sd hrang ≤ 360 := by
  unfold solposAzimuth
  dsimp only
  set ca := (if (se * sl - sd) / cecl > 1 then (1 : ℝ)
    else if (se * sl - sd) / cecl < -1 then -1 else (se * sl - sd) / cecl) with hca
  obtain ⟨ha, hb⟩ := degrees_arccos_mem ca
  split_ifs <;> constructor <;> linarith

theorem spaMain_azimuth_shape (year month : ℤ)
    (day hour minute second microsecond latitude longitude elevation pressure temperature
      omega gamma dt : ℝ) :
    ∃ t, (spaMain year month day hour minute second microsecond latitude longitude elevation
      pressure temperature omega gamma dt).azimuth = pymod (t + 180) 360 :=
  ⟨_, rfl⟩

theorem spaMain_topoRA_shape (year month : ℤ)
    (day hour minute second microsecond latitude longitude elevation pressure temperature
      omega gamma dt : ℝ) :
    ∃ l b e x xi h d,
      (spaMain year month day hour minute second microsecond latitude longitude elevation
        pressure temperature omega gamma dt).topoRA =
      raFromEcliptic l b e + deltaAlpha x xi h d :=
  ⟨_, _, _, _, _, _, _, rfl⟩

theorem spaMain_topoHA_shape (year month : ℤ)
    (day hour minute second microsecond latitude longitude elevation pressure temperature
      omega gamma dt : ℝ) :
    ∃ t x xi h d,
      (spaMain year month day hour minute second microsecond latitude longitude elevation
        pressure temperature omega gamma dt).topoHA =
      pymod t 360 - deltaAlpha x xi h d :=
  ⟨_, _, _, _, _, rfl⟩

theorem solposCore_rascen_shape (year : ℤ) (month : ℕ) (day : ℤ)
    (hour minute second timezone latitude longitude interval : ℝ) :
    ∃ t, (solposCore year month day hour minute second timezone latitude longitude
      interval).rascen = pymod t 360 :=
  ⟨_, rfl⟩

theorem solposCore_hrang_shape (year : ℤ) (month : ℕ) (day : ℤ)
    (hour minute second timezone latitude longitude interval : ℝ) :
    ∃ a b, (solposCore year month day hour minute second timezone latitude longitude
      interval).hrang = hourAngleWrap (pymod a 360) (pymod b 360) :=
  ⟨_, _, rfl⟩

theorem solposCore_azim_shape (year : ℤ) (month : ℕ) (day : ℤ)
    (hour minute second timezone latitude longitude interval : ℝ) :
    ∃ cecl se sl sd hr, (solposCore year month day hour minute second timezone latitude
      longitude interval).azim = solposAzimuth cecl se sl sd hr :=
  ⟨_, _, _, _, _, rfl⟩

/-- Counterexample for claim C8: spa's topocentric right ascension is not
reduced mod 360.  It is assembled on spa.py line 795 as `a_prime = a2 + da`
with `a2` in [0, 360) (line 782) and no further reduction; with a2 = 0
(= pymod 0 360) and the parallax correction da = deltaAlpha 1 90 90 0, whose
atan2 evaluates in the lower half-plane, the sum is negative, hence outside
[0, 360). -/
theorem c8_counterexample : pymod 0 360 + deltaAlpha 1 90 90 0 < 0 := by
  have h1 : radians 90 = Real.pi / 2 := by unfold radians; ring
  have h2 : radians 0 = 0 := by unfold radians; ring
  have h3 : deltaAlpha 1 90 90 0 = degrees (pyAtan2 (-1) 1) := by
    unfold deltaAlpha
    rw [h1, h2, Real.sin_pi_div_two, Real.cos_pi_div_two, Real.cos_zero]
    norm_num
  have h4 : pyAtan2 (-1) 1 < 0 := by
    unfold pyAtan2
    apply Complex.arg_neg_iff.mpr
    simp
  have h5 : degrees (pyAtan2 (-1) 1) < 0 := by
    unfold degrees
    exact mul_neg_of_neg_of_pos h4 (by positivity)
  rw [pymod_of_mem le_rfl (by norm_num : (0:ℝ) < 360), h3]
  linarith

/-- Claim C8 as amended: spa's topocentric azimuth lies in [0, 360), solpos's
right ascension lies in [0, 360), solpos's hour angle after its wraparound
lies in [-180, 180], and solpos's azimuth lies in [0, 360] (the endpoint 360
occurs at the clamped acos boundary); but spa's topocentric right ascension
and topocentric local hour angle are not reduced mod 360: they are a2 + da and
H - da with a2, H in [0, 360) and the parallax correction da in (-180, 180],
so they are only guaranteed to lie in (-180, 540) and [-180, 540)
respectively, and can lie outside [0, 360). -/
theorem c8_angular_ranges (year month : ℤ)
    (day hour minute second microsecond latitude longitude elevation pressure temperature
      omega gamma dt : ℝ)
    (syear : ℤ) (smonth : ℕ) (sday : ℤ)
    (shour sminute ssecond stimezone slatitude slongitude sinterval : ℝ) :
    (0 ≤ (spaMain year month day hour minute second microsecond latitude longitude elevation
        pressure temperature omega gamma dt).azimuth ∧
      (spaMain year month day hour minute second microsecond latitude longitude elevation
        pressure temperature omega gamma dt).azimuth < 360) ∧
    (-180 < (spaMain year month day hour minute second microsecond latitude longitude
        elevation pressure temperature omega gamma dt).topoRA ∧
      (spaMain year month day hour minute second microsecond latitude longitude elevation
        pressure temperature omega gamma dt).topoRA < 540) ∧
    (-180 ≤ (spaMain year month day hour minute second microsecond latitude longitude
        elevation pressure temperature omega gamma dt).topoHA ∧
      (spaMain year month day hour minute second microsecond latitude longitude elevation
        pressure temperature omega gamma dt).topoHA < 540) ∧
    (0 ≤ (solposCore syear smonth sday shour sminute ssecond stimezone slatitude slongitude
        sinterval).rascen ∧
      (solposCore syear smonth sday shour sminute ssecond stimezone slatitude slongitude
        sinterval).rascen < 360) ∧
    (-180 ≤ (solposCore syear smonth sday shour sminute ssecond stimezone slatitude
        slongitude sinterval).hrang ∧
      (solposCore syear smonth sday shour sminute ssecond stimezone slatitude slongitude
        sinterval).hrang ≤ 180) ∧
    (0 ≤ (solposCore syear smonth sday shour sminute ssecond stimezone slatitude slongitude
        sinterval).azim ∧
      (solposCore syear smonth sday shour sminute ssecond stimezone slatitude slongitude
        sinterval).azim ≤ 360) := by
  refine ⟨?_, ?_, ?_, ?_, ?_, ?_⟩
  · obtain ⟨t, ht⟩ := spaMain_azimuth_shape year month day hour minute second microsecond
      latitude longitude elevation pressure temperature omega gamma dt
    rw [ht]
    exact ⟨pymod_nonneg _ (by norm_num), pymod_lt _ (by norm_num)⟩
  · obtain ⟨l, b, e, x, xi, h, d, ht⟩ := spaMain_topoRA_shape year month day hour minute
      second microsecond latitude longitude elevation pressure temperature omega gamma dt
    rw [ht]
    obtain ⟨ha1, ha2⟩ := raFromEcliptic_mem l b e
    obtain ⟨hd1, hd2⟩ := deltaAlpha_mem x xi h d
    constructor <;> linarith
  · obtain ⟨t, x, xi, h, d, ht⟩ := spaMain_topoHA_shape year month day hour minute second
      microsecond latitude longitude elevation pressure temperature omega gamma dt
    rw [ht]
    have hm1 := pymod_nonneg t (by norm_num : (0:ℝ) < 360)
    have hm2 := pymod_lt t (by norm_num : (0:ℝ) < 360)
    obtain ⟨hd1, hd2⟩ := deltaAlpha_mem x xi h d
    constructor <;> linarith
  · obtain ⟨t, ht⟩ := solposCore_rascen_shape syear smonth sday shour sminute ssecond
      stimezone slatitude slongitude sinterval
    rw [ht]
    exact ⟨pymod_nonneg _ (by norm_num), pymod_lt _ (by norm_num)⟩
  · obtain ⟨a, b, ht⟩ := solposCore_hrang_shape syear smonth sday shour sminute ssecond
      stimezone slatitude slongitude sinterval
    rw [ht]
    exact hourAngleWrap_mem (pymod_nonneg _ (by norm_num)) (pymod_lt _ (by norm_num))
      (pymod_nonneg _ (by norm_num)) (pymod_lt _ (by norm_num))
  · obtain ⟨cecl, se, sl, sd, hr, ht⟩ := solposCore_azim_shape syear smonth sday shour
      sminute ssecond stimezone slatitude slongitude sinterval
    rw [ht]
    exact solposAzimuth_mem cecl se sl sd hr

/-! Claim C7: the Bird model's valid domain and zero sentinel
(bird.py lines 50-86). -/

theorem birdAirMass_pos {z : ℝ} (h0 : 0 ≤ z) (h1 : z < 90) : 0 < birdAirMass z := by
  unfold birdAirMass
  have hpi := Real.pi_pos
  have hc : 0 < Real.cos (radians z) := by
    apply Real.cos_pos_of_mem_Ioo
    rw [Set.mem_Ioo]
    unfold radians
    constructor
    · have e1 : 0 ≤ z * (Real.pi / 180) := by positivity
      linarith
    · have e2 : z * (Real.pi / 180) < 90 * (Real.pi / 180) :=
        mul_lt_mul_of_pos_right h1 (by positivity)
      have e3 : (90 : ℝ) * (Real.pi / 180) = Real.pi / 2 := by ring
      linarith
  have hr : 0 < (96.07995 - z) ^ (-1.6364 : ℝ) :=
    Real.rpow_pos_of_pos (by linarith) _
  exact inv_pos.mpr (by positivity)

theorem bird_amass_of_mem {r z p o w a alb dm ba k1 : ℝ}
    (h : 0 ≤ z ∧ z < 90 ∧ 0 < r) :
    (bird r z p o w a alb dm ba k1).amass = birdAirMass z := by
  unfold bird
  rw [if_pos h]
  dsimp only
  split_ifs <;> rfl

theorem pyPowDefined_of_pos {x : ℝ} (hx : 0 < x) (y : ℝ) : pyPowDefined x y :=
  Or.inl hx

theorem pyPowDefined_of_nonneg {x y : ℝ} (hx : 0 ≤ x) (hy : 0 < y) :
    pyPowDefined x y := by
  rcases hx.lt_or_eq with h | h
  · exact Or.inl h
  · exact Or.inr ⟨h.symm, hy⟩

/-- Counterexample for claim C7: the in-domain input zenith = 45, r = 1 with
pressure = -1000 makes the pressure-corrected air mass `m_prime` negative, so
`m_prime ** 0.84` on bird.py line 58 is a complex number and `math.exp` raises
TypeError: the call raises inside the claimed valid domain, refuting the
claim's `no exception is raised` conjunct. -/
theorem c7_counterexample :
    ((0:ℝ) ≤ 45 ∧ (45:ℝ) < 90 ∧ (0:ℝ) < 1) ∧
    birdOpt 1 45 (-1000) 0.3 1.5 0.04 0.2 1 0.85 0.1 = none := by
  refine ⟨⟨by norm_num, by norm_num, by norm_num⟩, ?_⟩
  have hm : 0 < birdAirMass 45 := birdAirMass_pos (by norm_num) (by norm_num)
  have hmp : birdAirMass 45 * (-1000) / 1013 < 0 :=
    div_neg_of_neg_of_pos (mul_neg_of_pos_of_neg hm (by norm_num)) (by norm_num)
  unfold birdOpt
  rw [if_pos ⟨by norm_num, by norm_num, by norm_num⟩]
  dsimp only
  split_ifs with hc
  · exfalso
    have h1 := hc.1
    unfold pyPowDefined at h1
    rcases h1 with h1 | ⟨h1, -⟩
    · linarith
    · rw [h1] at hmp
      exact absurd hmp (lt_irrefl 0)
  · rfl

/-- Claim C7 (corrected): under the exception semantics of `birdOpt`,
whenever the bird call returns a value at all, that value is the all-zero
7-tuple exactly when the input is outside the valid domain
`0 <= zenith < 90 and r > 0`, and every value returned inside the domain has
a strictly positive first output (the relative air mass); the claim's
unconditional `inside the valid domain no exception is raised` is refuted by
`c7_counterexample`. -/
theorem c7_bird_zero_iff_when_returns (r z p o w a alb dm ba k1 : ℝ) :
    (∀ v, birdOpt r z p o w a alb dm ba k1 = some v →
      (v = ⟨0, 0, 0, 0, 0, 0, 0⟩ ↔ ¬(0 ≤ z ∧ z < 90 ∧ 0 < r))) ∧
    ((0 ≤ z ∧ z < 90 ∧ 0 < r) →
      ∀ v, birdOpt r z p o w a alb dm ba k1 = some v → 0 < v.amass) := by
  by_cases hdom : 0 ≤ z ∧ z < 90 ∧ 0 < r
  · have hm : 0 < birdAirMass z := birdAirMass_pos hdom.1 hdom.2.1
    have hval : ∀ v, birdOpt r z p o w a alb dm ba k1 = some v →
        v = bird r z p o w a alb dm ba k1 := by
      intro v hv
      unfold birdOpt at hv
      rw [if_pos hdom] at hv
      dsimp only at hv
      split_ifs at hv
      exact (Option.some_inj.mp hv).symm
    constructor
    · intro v hv
      have hvv := hval v hv
      constructor
      · intro hzero
        exfalso
        have h0 : (bird r z p o w a alb dm ba k1).amass = 0 := by
          rw [← hvv, hzero]
        rw [bird_amass_of_mem hdom] at h0
        exact absurd h0.symm (ne_of_lt hm)
      · intro hnd
        exact absurd hdom hnd
    · intro _ v hv
      rw [hval v hv, bird_amass_of_mem hdom]
      exact hm
  · constructor
    · intro v hv
      unfold birdOpt at hv
      rw [if_neg hdom] at hv
      exact ⟨fun _ => hdom, fun _ => (Option.some_inj.mp hv).symm⟩
    · intro hd
      exact absurd hd hdom

/-- Witness for the corrected C7 at zenith 100 (outside the valid domain):
the call returns the all-zero tuple and the theorem's equivalence applies to
it. -/
theorem c7_bird_zero_iff_when_returns_witness :
    birdOpt 1 100 1013 0.3 1.5 0.04 0.2 1 0.85 0.1 = some ⟨0, 0, 0, 0, 0, 0, 0⟩ ∧
    ((⟨0, 0, 0, 0, 0, 0, 0⟩ : BirdOut) = ⟨0, 0, 0, 0, 0, 0, 0⟩ ↔
      ¬((0:ℝ) ≤ 100 ∧ (100:ℝ) < 90 ∧ (0:ℝ) < 1)) := by
  have h : birdOpt 1 100 1013 0.3 1.5 0.04 0.2 1 0.85 0.1 =
      some ⟨0, 0, 0, 0, 0, 0, 0⟩ := by
    unfold birdOpt
    rw [if_neg (by intro hc; exact absurd hc.2.1 (by norm_num))]
  exact ⟨h, (c7_bird_zero_iff_when_returns 1 100 1013 0.3 1.5 0.04 0.2 1 0.85 0.1).1 _ h⟩

/-- Complement to the corrected C7: with nonnegative pressure, ozone, water
and aerosol (every fractional-power base is then admissible) and the three
denominators that depend on albedo, ba and k1 nonzero, the in-domain bird
call raises no exception and returns the value computed by the total model. -/
theorem birdOpt_returns_of_physical (r z p o w a alb dm ba k1 : ℝ)
    (hdom : 0 ≤ z ∧ z < 90 ∧ 0 < r)
    (hp : 0 ≤ p) (ho : 0 ≤ o) (hw : 0 ≤ w) (ha : 0 ≤ a)
    (hden1 : birdTaa k1 (birdAirMass z) (birdTa a (birdAirMass z)) ≠ 0)
    (hden2 : (1 : ℝ) - birdAirMass z + birdAirMass z ^ (1.02 : ℝ) ≠ 0)
    (hden3 : (1 : ℝ) - alb * (0.0685 + (1 - ba) *
      (1 - birdTa a (birdAirMass z) /
        birdTaa k1 (birdAirMass z) (birdTa a (birdAirMass z)))) ≠ 0) :
    birdOpt r z p o w a alb dm ba k1 = some (bird r z p o w a alb dm ba k1) := by
  have hm : 0 < birdAirMass z := birdAirMass_pos hdom.1 hdom.2.1
  have hmp : 0 ≤ birdAirMass z * p / 1013 :=
    div_nonneg (mul_nonneg hm.le hp) (by norm_num)
  have hxo : 0 ≤ o * birdAirMass z := mul_nonneg ho hm.le
  have hxw : 0 ≤ w * birdAirMass z := mul_nonneg hw hm.le
  have htwb : (0:ℝ) < 1 + 79.034 * (w * birdAirMass z) := by nlinarith
  have htwden : (0:ℝ) <
      (1 + 79.034 * (w * birdAirMass z)) ^ (0.6828 : ℝ) + 6.385 * (w * birdAirMass z) := by
    have hrp := Real.rpow_pos_of_pos htwb (0.6828 : ℝ)
    nlinarith
  unfold birdOpt
  rw [if_pos hdom]
  dsimp only
  split_ifs with hg
  · rfl
  · exact absurd
      ⟨pyPowDefined_of_nonneg hmp (by norm_num),
       pyPowDefined_of_nonneg hmp (by norm_num),
       pyPowDefined_of_pos (by nlinarith) _,
       (show (0:ℝ) < 1 + 0.044 * (o * birdAirMass z)
          + 0.0003 * (o * birdAirMass z) ^ 2 by nlinarith [sq_nonneg (o * birdAirMass z)]).ne',
       pyPowDefined_of_nonneg hmp (by norm_num),
       pyPowDefined_of_pos htwb _,
       htwden.ne',
       pyPowDefined_of_nonneg ha (by norm_num),
       pyPowDefined_of_nonneg ha (by norm_num),
       pyPowDefined_of_pos hm _,
       pyPowDefined_of_pos hm _,
       hden1,
       pyPowDefined_of_pos hm _,
       hden2, hden3⟩ hg

/-! Claim C6: eclipse classification and SUL percentage
(sampa.py lines 456-490). -/

theorem mul_sqrt_le_arccos {c : ℝ} (h2 : c ≤ 1) :
    c * Real.sqrt (1 - c ^ 2) ≤ Real.arccos c := by
  have hs : Real.sqrt (1 - c ^ 2) = Real.sin (Real.arccos c) := (Real.sin_arccos c).symm
  have h0 : 0 ≤ Real.arccos c := Real.arccos_nonneg c
  have hsin_le : Real.sin (Real.arccos c) ≤ Real.arccos c := by
    rcases eq_or_lt_of_le h0 with heq | hlt
    · rw [← heq, Real.sin_zero]
    · exact le_of_lt (Real.sin_lt hlt)
  calc c * Real.sqrt (1 - c ^ 2) ≤ Real.sqrt (1 - c ^ 2) :=
        mul_le_of_le_one_left (Real.sqrt_nonneg _) h2
    _ = Real.sin (Real.arccos c) := hs
    _ ≤ Real.arccos c := hsin_le

theorem segment_nonneg {r d : ℝ} (hr : 0 < r) (h1 : -r ≤ d) (h2 : d ≤ r) :
    d * Real.sqrt (r ^ 2 - d ^ 2) ≤ r ^ 2 * Real.arccos (d / r) := by
  have hc2 : d / r ≤ 1 := (div_le_one hr).mpr h2
  have key := mul_sqrt_le_arccos hc2
  have hsq : Real.sqrt (r ^ 2 - d ^ 2) = r * Real.sqrt (1 - (d / r) ^ 2) := by
    have hrw : r ^ 2 - d ^ 2 = r ^ 2 * (1 - (d / r) ^ 2) := by field_simp
    rw [hrw, Real.sqrt_mul (by positivity : (0:ℝ) ≤ r ^ 2), Real.sqrt_sq hr.le]
  rw [hsq]
  calc d * (r * Real.sqrt (1 - (d / r) ^ 2))
      = r ^ 2 * (d / r * Real.sqrt (1 - (d / r) ^ 2)) := by field_simp; ring
    _ ≤ r ^ 2 * Real.arccos (d / r) := mul_le_mul_of_nonneg_left key (by positivity)

theorem lensArea_nonneg {ems rm rs : ℝ} (hrs : 0 < rs) (hlt : ems < rm + rs)
    (hgt : |rm - rs| < ems) : 0 ≤ lensArea ems rm rs := by
  have he : 0 < ems := lt_of_le_of_lt (abs_nonneg _) hgt
  have habs1 : rm - rs < ems := lt_of_le_of_lt (le_abs_self _) hgt
  have habs2 : rs - rm < ems := by
    have : -(rm - rs) ≤ |rm - rs| := neg_le_abs _
    linarith
  have hrm : 0 < rm := by linarith
  unfold lensArea
  dsimp only
  set s := (ems ^ 2 + rs ^ 2 - rm ^ 2) / (2 * ems) with hsdef
  set m := (ems ^ 2 - rs ^ 2 + rm ^ 2) / (2 * ems) with hmdef
  have hs1 : -rs ≤ s := by
    rw [hsdef, le_div_iff (by positivity)]
    nlinarith [mul_pos (show 0 < rm - ems + rs by linarith) (show 0 < rm + ems + rs by positivity)]
  have hs2 : s ≤ rs := by
    rw [hsdef, div_le_iff (by positivity)]
    nlinarith [mul_pos (show 0 < rm - ems + rs by linarith) (show 0 < rm + ems - rs by linarith)]
  have hm1 : -rm ≤ m := by
    rw [hmdef, le_div_iff (by positivity)]
    nlinarith [mul_pos (show 0 < rs - ems + rm by linarith) (show 0 < rs + ems + rm by positivity)]
  have hm2 : m ≤ rm := by
    rw [hmdef, div_le_iff (by positivity)]
    nlinarith [mul_pos (show 0 < rs - ems + rm by linarith) (show 0 < rs + ems - rm by linarith)]
  have hchord : Real.sqrt (4 * ems ^ 2 * rs ^ 2 - (ems ^ 2 + rs ^ 2 - rm ^ 2) ^ 2) / (2 * ems)
      = Real.sqrt (rs ^ 2 - s ^ 2) := by
    have h4 : 4 * ems ^ 2 * rs ^ 2 - (ems ^ 2 + rs ^ 2 - rm ^ 2) ^ 2
        = (2 * ems) ^ 2 * (rs ^ 2 - s ^ 2) := by
      rw [hsdef]
      field_simp
      ring
    rw [h4, Real.sqrt_mul (by positivity) _, Real.sqrt_sq (by positivity)]
    field_simp
  have hsym : Real.sqrt (rs ^ 2 - s ^ 2) = Real.sqrt (rm ^ 2 - m ^ 2) := by
    congr 1
    rw [hsdef, hmdef]
    field_simp
    ring
  rw [hchord]
  have k1 : s * Real.sqrt (rs ^ 2 - s ^ 2) ≤ rs ^ 2 * Real.arccos (s / rs) :=
    segment_nonneg hrs hs1 hs2
  have k2 : m * Real.sqrt (rm ^ 2 - m ^ 2) ≤ rm ^ 2 * Real.arccos (m / rm) :=
    segment_nonneg hrm hm1 hm2
  rw [← hsym] at k2
  linarith

theorem overlapArea_nonneg (ems rm : ℝ) {rs : ℝ} (hrs : 0 < rs) : 0 ≤ overlapArea ems rm rs := by
  unfold overlapArea
  split_ifs with h1 h2
  · positivity
  · exact lensArea_nonneg hrs h1 (not_le.mp h2)
  · exact le_rfl

theorem sulArea_nonneg (ems rm rs : ℝ) : 0 ≤ sulArea ems rm rs := by
  unfold sulArea
  dsimp only
  split_ifs with h
  · exact le_rfl
  · linarith [not_lt.mp h]

theorem sulArea_le (ems rm : ℝ) {rs : ℝ} (hrs : 0 < rs) :
    sulArea ems rm rs ≤ Real.pi * rs ^ 2 := by
  have hov := overlapArea_nonneg ems rm hrs
  unfold sulArea
  dsimp only
  split_ifs with h
  · positivity
  · linarith

/-- Claim C6 (confirmed, under the structural hypothesis that the solar disk
radius is positive, as it is for every sun-Earth distance the series can
produce on the algorithm's domain): the eclipse classification agrees with the
geometry — separation beyond the sum of radii gives "No Eclipse", exact
equality gives the boundary note, separation below the absolute difference of
radii gives a total eclipse with overlap pi*rm^2, anything in between gives a
partial eclipse with the two-circle lens-intersection overlap — and the SUL
percentage always lies in [0, 100]. -/
theorem c6_eclipse_geometry (ems rm rs : ℝ) (hrs : 0 < rs) :
    (rm + rs < ems → eclipseNote ems rm rs = "No Eclipse") ∧
    (ems = rm + rs → eclipseNote ems rm rs = "Start or End of Eclipse") ∧
    (ems < rm + rs → ems ≤ |rm - rs| →
      eclipseNote ems rm rs = "Total Solar Eclipse" ∧
        overlapArea ems rm rs = Real.pi * rm ^ 2) ∧
    (ems < rm + rs → |rm - rs| < ems →
      eclipseNote ems rm rs = "Partial Solar Eclipse" ∧
        overlapArea ems rm rs = lensArea ems rm rs) ∧
    0 ≤ sulPercent ems rm rs ∧ sulPercent ems rm rs ≤ 100 := by
  refine ⟨?_, ?_, ?_, ?_, ?_, ?_⟩
  · intro h
    rw [eclipseNote, if_pos h]
  · intro h
    rw [eclipseNote, if_neg (by rw [h]; exact lt_irrefl _), if_pos h]
  · intro h1 h2
    constructor
    · rw [eclipseNote, if_neg (by linarith), if_neg (by linarith), if_pos h2]
    · rw [overlapArea, if_pos h1, if_pos h2]
  · intro h1 h2
    constructor
    · rw [eclipseNote, if_neg (by linarith), if_neg (by linarith), if_neg (not_le.mpr h2)]
    · rw [overlapArea, if_pos h1, if_neg (not_le.mpr h2)]
  · unfold sulPercent
    have := sulArea_nonneg ems rm rs
    positivity
  · unfold sulPercent
    rw [div_le_iff (by positivity)]
    have := sulArea_le ems rm hrs
    nlinarith [Real.pi_pos]

/-- Witness for C6 at separation 3 with unit disk radii (a no-eclipse
geometry). -/
theorem c6_eclipse_geometry_witness :
    eclipseNote 3 1 1 = "No Eclipse" ∧ 0 ≤ sulPercent 3 1 1 ∧ sulPercent 3 1 1 ≤ 100 :=
  ⟨(c6_eclipse_geometry 3 1 1 one_pos).1 (by norm_num),
   (c6_eclipse_geometry 3 1 1 one_pos).2.2.2.2.1,
   (c6_eclipse_geometry 3 1 1 one_pos).2.2.2.2.2⟩

/-! Claim C10: "No Eclipse" irradiance identity (sampa.py lines 462-492,
bird.py lines 69-84). -/

theorem birdTr_pos (x : ℝ) : 0 < birdTr x := by unfold birdTr; exact Real.exp_pos _

theorem birdTum_pos (x : ℝ) : 0 < birdTum x := by unfold birdTum; exact Real.exp_pos _

theorem birdTa_pos (a m : ℝ) : 0 < birdTa a m := by unfold birdTa; exact Real.exp_pos _

theorem bird_dniMod_one (r z p o w a alb ba k1 : ℝ) :
    (bird r z p o w a alb 1 ba k1).directNormalMod = (bird r z p o w a alb 1 ba k1).directNormal ∧
    ((¬(0 ≤ z ∧ z < 90 ∧ 0 < r) ∨ 0 ≤ birdDirectNormalRaw r z p o w a) →
      (bird r z p o w a alb 1 ba k1).globalHorizMod = (bird r z p o w a alb 1 ba k1).globalHoriz ∧
      (bird r z p o w a alb 1 ba k1).diffuseHorizMod =
        (bird r z p o w a alb 1 ba k1).diffuseHoriz) := by
  by_cases hg : 0 ≤ z ∧ z < 90 ∧ 0 < r
  · constructor
    · unfold bird
      rw [if_pos hg]
      dsimp only
      rw [if_pos (show (0:ℝ) ≤ 1 from by norm_num)]
      exact mul_one _
    · rintro (hc | hc)
      · exact absurd hg hc
      · unfold bird
        rw [if_pos hg]
        dsimp only
        rw [if_pos (show (0:ℝ) ≤ 1 from by norm_num)]
        dsimp only
        rw [if_neg (not_lt.mpr hc)]
        constructor
        · unfold birdDirectNormalRaw
          dsimp only
          ring
        · unfold birdDirectNormalRaw
          dsimp only
          ring
  · have hz : bird r z p o w a alb 1 ba k1 = ⟨0, 0, 0, 0, 0, 0, 0⟩ := by
      unfold bird
      rw [if_neg hg]
    rw [hz]
    exact ⟨rfl, fun _ => ⟨rfl, rfl⟩⟩

/-- Claim C10 as amended: on every "No Eclipse" geometry (separation beyond
the sum of disk radii, positive solar radius) the SUL area equals pi*rs^2, the
SUL percentage equals 100, bird is invoked with dni_mod = 1, and the
attenuated direct normal always equals the unattenuated one; the attenuated
global and diffuse horizontal outputs equal their counterparts whenever the
raw (pre-clamp) direct-normal value is nonnegative or the bird guard fails —
but not when the raw direct normal is negative and clamped, as the
counterexample shows. -/
theorem c10_noeclipse_identity
    (ems rm rs rcs thetaS pressure ozone water aerosol albedo ba k1 : ℝ)
    (h : rm + rs < ems) (hrs : 0 < rs) :
    sulArea ems rm rs = Real.pi * rs ^ 2 ∧
    sulPercent ems rm rs = 100 ∧
    sulPercent ems rm rs / 100 = 1 ∧
    (sampaIrradiance ems rm rs rcs thetaS pressure ozone water aerosol albedo ba k1).dniSul =
      (sampaIrradiance ems rm rs rcs thetaS pressure ozone water aerosol albedo ba k1).dni ∧
    ((¬(0 ≤ thetaS ∧ thetaS < 90 ∧ 0 < rcs) ∨
        0 ≤ birdDirectNormalRaw rcs thetaS pressure ozone water aerosol) →
      (sampaIrradiance ems rm rs rcs thetaS pressure ozone water aerosol albedo ba k1).ghiSul =
        (sampaIrradiance ems rm rs rcs thetaS pressure ozone water aerosol albedo ba k1).ghi ∧
      (sampaIrradiance ems rm rs rcs thetaS pressure ozone water aerosol albedo ba k1).dhiSul =
        (sampaIrradiance ems rm rs rcs thetaS pressure ozone water aerosol albedo ba k1).dhi) := by
  have hov : overlapArea ems rm rs = 0 := by
    rw [overlapArea, if_neg (not_lt.mpr h.le)]
  have hsul : sulArea ems rm rs = Real.pi * rs ^ 2 := by
    unfold sulArea
    dsimp only
    rw [hov, sub_zero, if_neg (not_lt.mpr (by positivity))]
  have hpct : sulPercent ems rm rs = 100 := by
    rw [sulPercent, hsul]
    field_simp
  have hdm : sulPercent ems rm rs / 100 = 1 := by rw [hpct]; norm_num
  have hb := bird_dniMod_one rcs thetaS pressure ozone water aerosol albedo ba k1
  refine ⟨hsul, hpct, hdm, ?_, ?_⟩
  · unfold sampaIrradiance
    dsimp only
    rw [hdm]
    exact hb.1
  · intro hc
    unfold sampaIrradiance
    dsimp only
    rw [hdm]
    exact hb.2 hc

/-- Witness for the amended claim C10 at a no-eclipse geometry with the bird
guard failing (zenith 100), where all outputs are zero on both sides. -/
theorem c10_noeclipse_identity_witness :
    ((1:ℝ) + 1 < 3 ∧ (0:ℝ) < 1) ∧
    (sampaIrradiance 3 1 1 1 100 1013 0.3 1.5 0.04 0.2 0.85 0.1).ghiSul =
      (sampaIrradiance 3 1 1 1 100 1013 0.3 1.5 0.04 0.2 0.85 0.1).ghi :=
  ⟨⟨by norm_num, by norm_num⟩,
    ((c10_noeclipse_identity 3 1 1 1 100 1013 0.3 1.5 0.04 0.2 0.85 0.1 (by norm_num)
      (by norm_num)).2.2.2.2 (Or.inl (by norm_num))).1⟩

theorem birdAirMass_zero_bounds :
    0.6 ≤ birdAirMass 0 ∧ birdAirMass 0 ≤ 1 ∧ 0 < birdAirMass 0 := by
  unfold birdAirMass
  rw [show radians 0 = 0 from by unfold radians; ring, Real.cos_zero]
  have hq1 : 0 < ((96.07995 : ℝ) - 0) ^ (-1.6364 : ℝ) :=
    Real.rpow_pos_of_pos (by norm_num) _
  have hq2 : ((96.07995 : ℝ) - 0) ^ (-1.6364 : ℝ) ≤ 1 :=
    Real.rpow_le_one_of_one_le_of_nonpos (by norm_num) (by norm_num)
  have hd1 : (1:ℝ) ≤ 1 + 0.50572 * ((96.07995 : ℝ) - 0) ^ (-1.6364 : ℝ) := by nlinarith
  have hd2 : 1 + 0.50572 * ((96.07995 : ℝ) - 0) ^ (-1.6364 : ℝ) ≤ 1.50572 := by nlinarith
  have hdpos : (0:ℝ) < 1 + 0.50572 * ((96.07995 : ℝ) - 0) ^ (-1.6364 : ℝ) := by linarith
  refine ⟨?_, inv_le_one hd1, inv_pos.mpr hdpos⟩
  have hstep := inv_le_inv_of_le hdpos hd2
  have h06 : (0.6 : ℝ) ≤ (1.50572 : ℝ)⁻¹ := by norm_num
  linarith

theorem birdTo_neg_big : birdTo (1000000000000 * birdAirMass 0) < 0 := by
  obtain ⟨hm06, hm1, hmpos⟩ := birdAirMass_zero_bounds
  set xo := (1000000000000 : ℝ) * birdAirMass 0 with hxodef
  have hxo_lb : (600000000000 : ℝ) ≤ xo := by
    have := mul_le_mul_of_nonneg_left hm06 (show (0:ℝ) ≤ 1000000000000 by norm_num)
    rw [hxodef]
    linarith
  have hxo_pos : 0 < xo := by linarith
  unfold birdTo
  have hT3 : 0 ≤ 0.002715 * xo * (1 + 0.044 * xo + 0.0003 * xo ^ 2)⁻¹ := by
    have hden : (0:ℝ) < 1 + 0.044 * xo + 0.0003 * xo ^ 2 := by nlinarith
    have hi := inv_pos.mpr hden
    nlinarith
  have hbase : (1:ℝ) ≤ 1 + 139.48 * xo := by nlinarith
  have hbase0 : (0:ℝ) ≤ 1 + 139.48 * xo := by linarith
  have hmono : (1 + 139.48 * xo) ^ (-(1 / 2) : ℝ) ≤ (1 + 139.48 * xo) ^ (-0.3034 : ℝ) :=
    Real.rpow_le_rpow_of_exponent_le hbase (by norm_num)
  have hhalf : (1 + 139.48 * xo) ^ (-(1 / 2) : ℝ) = (Real.sqrt (1 + 139.48 * xo))⁻¹ := by
    rw [Real.rpow_neg hbase0, ← Real.sqrt_eq_rpow]
  have hsqrt_pos : 0 < Real.sqrt (1 + 139.48 * xo) := Real.sqrt_pos.mpr (by linarith)
  have hsxo_pos : 0 < Real.sqrt xo := Real.sqrt_pos.mpr hxo_pos
  have hsq_le : Real.sqrt (1 + 139.48 * xo) ≤ 12 * Real.sqrt xo := by
    have h144 : (1:ℝ) + 139.48 * xo ≤ 144 * xo := by nlinarith
    calc Real.sqrt (1 + 139.48 * xo) ≤ Real.sqrt (144 * xo) := Real.sqrt_le_sqrt h144
      _ = 12 * Real.sqrt xo := by
          rw [show (144 : ℝ) = 12 ^ 2 by norm_num, Real.sqrt_mul (by positivity) xo,
            Real.sqrt_sq (by norm_num)]
  have hinv : (12 * Real.sqrt xo)⁻¹ ≤ (Real.sqrt (1 + 139.48 * xo))⁻¹ :=
    inv_le_inv_of_le hsqrt_pos hsq_le
  have hs700 : (700000 : ℝ) ≤ Real.sqrt xo := by
    rw [show (700000 : ℝ) = Real.sqrt (700000 ^ 2) from (Real.sqrt_sq (by norm_num)).symm]
    exact Real.sqrt_le_sqrt (by nlinarith)
  have hxo_nonneg : (0:ℝ) ≤ 0.1611 * xo := by nlinarith
  have hT2 : (2:ℝ) ≤ 0.1611 * xo * (1 + 139.48 * xo) ^ (-0.3034 : ℝ) := by
    have hstep3 : (2:ℝ) ≤ 0.1611 * xo * (12 * Real.sqrt xo)⁻¹ := by
      rw [← div_eq_mul_inv, le_div_iff (by nlinarith)]
      have hxo_eq : Real.sqrt xo * Real.sqrt xo = xo := Real.mul_self_sqrt hxo_pos.le
      nlinarith [mul_le_mul_of_nonneg_right hs700 hsxo_pos.le]
    have hstep2 : 0.1611 * xo * (12 * Real.sqrt xo)⁻¹ ≤
        0.1611 * xo * (Real.sqrt (1 + 139.48 * xo))⁻¹ :=
      mul_le_mul_of_nonneg_left hinv hxo_nonneg
    have hstep1 : 0.1611 * xo * (Real.sqrt (1 + 139.48 * xo))⁻¹ ≤
        0.1611 * xo * (1 + 139.48 * xo) ^ (-0.3034 : ℝ) := by
      rw [← hhalf]
      exact mul_le_mul_of_nonneg_left hmono hxo_nonneg
    linarith
  linarith

theorem birdTw_w0 : birdTw (0 * birdAirMass 0) = 1 := by
  rw [zero_mul]
  unfold birdTw
  norm_num

theorem birdDirectNormalRaw_neg_of (r z p o w a : ℝ)
    (hio : 0 < (1367 : ℝ) / r ^ 2)
    (hto : birdTo (o * birdAirMass z) < 0)
    (htw : 0 < birdTw (w * birdAirMass z)) :
    birdDirectNormalRaw r z p o w a < 0 := by
  unfold birdDirectNormalRaw
  dsimp only
  have h1 : 0 < 0.9662 * (1367 / r ^ 2) * birdTr (birdAirMass z * p / 1013) :=
    mul_pos (mul_pos (by norm_num) hio) (birdTr_pos _)
  have h2 : 0.9662 * (1367 / r ^ 2) * birdTr (birdAirMass z * p / 1013)
      * birdTo (o * birdAirMass z) < 0 := mul_neg_of_pos_of_neg h1 hto
  have h3 : 0.9662 * (1367 / r ^ 2) * birdTr (birdAirMass z * p / 1013)
      * birdTo (o * birdAirMass z) * birdTum (birdAirMass z * p / 1013) < 0 :=
    mul_neg_of_neg_of_pos h2 (birdTum_pos _)
  have h4 : 0.9662 * (1367 / r ^ 2) * birdTr (birdAirMass z * p / 1013)
      * birdTo (o * birdAirMass z) * birdTum (birdAirMass z * p / 1013)
      * birdTw (w * birdAirMass z) < 0 := mul_neg_of_neg_of_pos h3 htw
  exact mul_neg_of_neg_of_pos h4 (birdTa_pos _ _)

theorem bird_id2_neg_of (r z p o w a : ℝ)
    (hio : 0 < (1367 : ℝ) / r ^ 2) (hcos : 0 < Real.cos (radians z))
    (hto : birdTo (o * birdAirMass z) < 0)
    (htw : 0 < birdTw (w * birdAirMass z)) :
    1367 / r ^ 2 * Real.cos (radians z) * 0.9662 * birdTr (birdAirMass z * p / 1013)
      * birdTo (o * birdAirMass z) * birdTum (birdAirMass z * p / 1013)
      * birdTw (w * birdAirMass z) * birdTa a (birdAirMass z) < 0 := by
  have h1 : 0 < 1367 / r ^ 2 * Real.cos (radians z) * 0.9662
      * birdTr (birdAirMass z * p / 1013) :=
    mul_pos (mul_pos (mul_pos hio hcos) (by norm_num)) (birdTr_pos _)
  have h2 := mul_neg_of_pos_of_neg h1 hto
  have h3 := mul_neg_of_neg_of_pos h2 (birdTum_pos (birdAirMass z * p / 1013))
  have h4 := mul_neg_of_neg_of_pos h3 htw
  exact mul_neg_of_neg_of_pos h4 (birdTa_pos a (birdAirMass z))

theorem bird_globalMod_ne_of (r z p o w a alb ba k1 : ℝ)
    (hg : 0 ≤ z ∧ z < 90 ∧ 0 < r) (halb : alb = 0)
    (hdnraw : birdDirectNormalRaw r z p o w a < 0)
    (hid2 : 1367 / r ^ 2 * Real.cos (radians z) * 0.9662 * birdTr (birdAirMass z * p / 1013)
      * birdTo (o * birdAirMass z) * birdTum (birdAirMass z * p / 1013)
      * birdTw (w * birdAirMass z) * birdTa a (birdAirMass z) < 0) :
    (bird r z p o w a alb 1 ba k1).globalHorizMod ≠ (bird r z p o w a alb 1 ba k1).globalHoriz := by
  subst halb
  unfold bird
  rw [if_pos hg]
  dsimp only
  rw [if_pos (show (0:ℝ) ≤ 1 from by norm_num)]
  dsimp only
  rw [if_pos hdnraw]
  intro heq
  simp only [zero_mul, zero_add, sub_zero, div_one] at heq
  linarith

/-- Counterexample for claim C10: a "No Eclipse" geometry on which an
eclipse-attenuated output differs from its unattenuated counterpart.  With an
extreme ozone input the raw direct-normal value of the Bird formula is
negative, line 74-75 of bird.py clamps the direct normal to 0, and the
attenuated global-horizontal (computed from the clamped value) then differs
from the unattenuated one (computed from the unclamped formula): the identity
claimed for every input fails. -/
theorem c10_counterexample :
    eclipseNote 3 1 1 = "No Eclipse" ∧
    (sampaIrradiance 3 1 1 1 0 1013 1000000000000 0 0 0 0.85 0.1).ghiSul ≠
      (sampaIrradiance 3 1 1 1 0 1013 1000000000000 0 0 0 0.85 0.1).ghi := by
  constructor
  · rw [eclipseNote, if_pos (by norm_num)]
  · have hio : 0 < (1367 : ℝ) / (1:ℝ) ^ 2 := by norm_num
    have hcos : 0 < Real.cos (radians 0) := by
      rw [show radians 0 = 0 from by unfold radians; ring, Real.cos_zero]
      norm_num
    have hto := birdTo_neg_big
    have htw : 0 < birdTw (0 * birdAirMass 0) := by rw [birdTw_w0]; norm_num
    have hdnraw := birdDirectNormalRaw_neg_of 1 0 1013 1000000000000 0 0 hio hto htw
    have hid2 := bird_id2_neg_of 1 0 1013 1000000000000 0 0 hio hcos hto htw
    have hpct : sulPercent 3 1 1 / 100 = 1 := by
      have hov : overlapArea 3 1 1 = 0 := by rw [overlapArea, if_neg (by norm_num)]
      have hsul : sulArea 3 1 1 = Real.pi * 1 ^ 2 := by
        unfold sulArea
        dsimp only
        rw [hov, sub_zero, if_neg (not_lt.mpr (by positivity))]
      rw [sulPercent, hsul]
      field_simp
    have hne := bird_globalMod_ne_of 1 0 1013 1000000000000 0 0 0 0.85 0.1
      ⟨le_rfl, by norm_num, by norm_num⟩ rfl hdnraw hid2
    unfold sampaIrradiance
    dsimp only
    rw [hpct]
    exact hne

end Sundialy
